import Mathlib

/-!
Shallow embedding of the EvoSim WASM ecosystem core
(`src/wasm/ecosim/src/lib.rs`) in Lean 4, and a verification of the
behavioural claims about it.

Modelling conventions:
* Rust `f32` values are embedded as exact rationals (`ℚ`).  All the
  arithmetic the claims depend on (comparisons against thresholds,
  `max`/`min` floors and clamps, linear cost accounting) is performed
  exactly; float rounding is abstracted away.
* The transcendental primitives `sqrt`, `tanh`, `sin`, `cos` (and the
  brain hash, whose Rust implementation serialises floats to JSON text)
  have no exact rational counterpart.  They are passed in as an `Ops`
  record of oracle functions; theorems that need their analytic
  properties assume `OpsValid`, which the real functions satisfy
  (`|tanh| ≤ 1`, `|sin| ≤ 1`, `|cos| ≤ 1`, `sqrt ≥ 0` and
  `x ≤ y·y → sqrt x ≤ y`).
* Rust `u32`/`u64` counters are `Nat` with saturation made explicit
  (`u32max`); the LCG state is `Nat` reduced mod `2 ^ 32` at each step.
* Rust `Vec`/`HashSet` become `List` (the hash-set is only queried for
  membership and emptiness, which `List.contains` / `List.isEmpty`
  model faithfully).
* Out-of-range indexing, which would panic in Rust, is modelled by
  `List.getD`; no reachable state of the embedded code hits it.
-/

namespace EvoSim

/-- Diets of creatures (Rust `enum Diet`). -/
inductive Diet where
  | Herbivore : Diet
  | Carnivore : Diet
deriving DecidableEq

/-- Brain topology modes (Rust `enum BrainMode`). -/
inductive BrainMode where
  | OG : BrainMode
  | Zegion : BrainMode
deriving DecidableEq

/-- Rust `struct Brain`: layer sizes, flattened weight matrices, bias
vectors, and the optional recorded activations. -/
structure Brain where
  layer_sizes : List Nat
  weights : Option (List (List ℚ))
  biases : Option (List (List ℚ))
  activations : Option (List (List ℚ))
deriving DecidableEq

/-- Rust `struct Plant`. -/
structure Plant where
  x : ℚ
  y : ℚ
  radius : ℚ
deriving DecidableEq

/-- Rust `struct Corpse`, including the last-tick decay telemetry. -/
structure Corpse where
  x : ℚ
  y : ℚ
  radius : ℚ
  energy_remaining : ℚ
  initial_decay_time : ℚ
  decay_timer : ℚ
  last_decay_total : ℚ
  last_decay_base : ℚ
  last_decay_temp : ℚ
  last_decay_humid : ℚ
  last_decay_rain : ℚ
  last_decay_wet : ℚ
deriving DecidableEq

/-- Rust `struct Creature`, including reproduction state and telemetry. -/
structure Creature where
  id : String
  x : ℚ
  y : ℚ
  vx : ℚ
  vy : ℚ
  radius : ℚ
  health : ℚ
  energy : ℚ
  stamina : ℚ
  max_stamina : ℚ
  thirst : ℚ
  lifespan : Nat
  diet : Diet
  brain : Brain
  is_pregnant : Bool
  gestation_timer : ℚ
  offspring_count : Nat
  actions_mask : Nat
  feelings_mask : Nat
  stagnant_ticks : Nat
  last_env_total : ℚ
  last_env_swim : ℚ
  last_env_wind : ℚ
  last_env_cold : ℚ
  last_env_heat : ℚ
  last_env_humid : ℚ
  last_env_oxy : ℚ
  last_env_noise : ℚ
  last_env_disease : ℚ
  last_locomotion : ℚ
deriving DecidableEq

/-- Rust `struct Config`: the flat set of tunable cost coefficients. -/
structure Config where
  rest_stamina_regen_per_sec : ℚ
  rest_health_regen_per_sec : ℚ
  harvest_plant_action_cost_per_second : ℚ
  attack_cost_per_hit_stamina : ℚ
  sprint_overflow_cost_per_sec : ℚ
  posture_cost_per_sec : ℚ
  attack_cost_per_hit_energy : ℚ
  thirst_threshold : ℚ
  thirst_recovery_per_sec : ℚ
  drink_cost_per_second : ℚ
  move_cost_coeff_per_speed_per_sec : ℚ
  ambient_health_decay_per_sec : ℚ
  aging_health_decay_coeff : ℚ
  gestation_base_cost_per_sec : ℚ
  gestation_cost_per_offspring_per_sec : ℚ
  gestation_period : ℚ
  birth_event_cost_energy : ℚ
  mutation_cost_energy_base : ℚ
  mutation_cost_per_std_change : ℚ
  hunger_energy_threshold : ℚ
  fatigue_stamina_threshold : ℚ
  movement_threshold : ℚ
  stagnant_ticks_limit : Nat
  swim_energy_cost_per_sec : ℚ
  wind_drag_coeff : ℚ
  temp_cold_penalty_per_sec : ℚ
  temp_heat_penalty_per_sec : ℚ
  comfort_low_c : ℚ
  comfort_high_c : ℚ
  humidity_dehydration_coeff_per_sec : ℚ
  humidity_threshold : ℚ
  oxygen_thin_air_penalty_per_sec : ℚ
  thin_air_elevation_cutoff01 : ℚ
  noise_stress_penalty_per_sec : ℚ
  disease_energy_drain_per_sec : ℚ
  corpse_base_decay_per_sec : ℚ
  corpse_temp_decay_coeff : ℚ
  corpse_humidity_decay_coeff : ℚ
  corpse_rain_decay_coeff : ℚ
  corpse_wetness_decay_coeff : ℚ
deriving DecidableEq

/-- Rust `impl Default for Config`. -/
def defaultConfig : Config where
  rest_stamina_regen_per_sec := 2
  rest_health_regen_per_sec := 0.2
  harvest_plant_action_cost_per_second := 0.02
  attack_cost_per_hit_stamina := 2
  sprint_overflow_cost_per_sec := 0.03
  posture_cost_per_sec := 0.005
  attack_cost_per_hit_energy := 0.04
  thirst_threshold := 30
  thirst_recovery_per_sec := 5
  drink_cost_per_second := 0.01
  move_cost_coeff_per_speed_per_sec := 0.02
  ambient_health_decay_per_sec := 0.02
  aging_health_decay_coeff := 0.5
  gestation_base_cost_per_sec := 0.02
  gestation_cost_per_offspring_per_sec := 0.015
  gestation_period := 60 * 20
  birth_event_cost_energy := 4
  mutation_cost_energy_base := 0.5
  mutation_cost_per_std_change := 0.8
  hunger_energy_threshold := 30
  fatigue_stamina_threshold := 30
  movement_threshold := 0.02
  stagnant_ticks_limit := 600
  swim_energy_cost_per_sec := 0
  wind_drag_coeff := 0
  temp_cold_penalty_per_sec := 0
  temp_heat_penalty_per_sec := 0
  comfort_low_c := 10
  comfort_high_c := 28
  humidity_dehydration_coeff_per_sec := 0
  humidity_threshold := 0.7
  oxygen_thin_air_penalty_per_sec := 0
  thin_air_elevation_cutoff01 := 0.8
  noise_stress_penalty_per_sec := 0
  disease_energy_drain_per_sec := 0
  corpse_base_decay_per_sec := 0.5
  corpse_temp_decay_coeff := 0
  corpse_humidity_decay_coeff := 0
  corpse_rain_decay_coeff := 0
  corpse_wetness_decay_coeff := 0

/-- Oracle record for the numeric primitives that have no exact rational
embedding: `f32::sqrt`, `f32::tanh`, `f32::sin`, `f32::cos`, and the
canonical brain hash `brain_hash` (whose Rust code serialises the brain
to JSON text and applies the 32-bit rolling hash `simple_hash_str`). -/
structure Ops where
  sqrtQ : ℚ → ℚ
  tanhQ : ℚ → ℚ
  sinQ : ℚ → ℚ
  cosQ : ℚ → ℚ
  hashB : Brain → String

/-- Analytic facts about the oracle functions used by the theorems.
The genuine real-valued `sqrt`, `tanh`, `sin`, `cos` satisfy all of
them (for any hash function). -/
structure OpsValid (ops : Ops) : Prop where
  sqrt_nonneg : ∀ x, 0 ≤ ops.sqrtQ x
  sqrt_le : ∀ x y, 0 ≤ y → x ≤ y * y → ops.sqrtQ x ≤ y
  tanh_abs_le : ∀ x, |ops.tanhQ x| ≤ 1
  sin_abs_le : ∀ x, |ops.sinQ x| ≤ 1
  cos_abs_le : ∀ x, |ops.cosQ x| ≤ 1

/-- Degenerate oracle instance used to instantiate theorems on concrete
inputs: all analytic primitives return `0`, the hash is constantly `"x"`. -/
def trivOps : Ops where
  sqrtQ := fun _ => 0
  tanhQ := fun _ => 0
  sinQ := fun _ => 0
  cosQ := fun _ => 0
  hashB := fun _ => "x"

theorem trivOps_valid : OpsValid trivOps := by
  constructor <;> intro x <;> simp [trivOps]
  intro y hy _
  exact hy

/-- Rust `struct RngLCG`: 32-bit linear-congruential generator state. -/
structure RngLCG where
  state : Nat
deriving DecidableEq

/-- Rust `RngLCG::new`: seed 0 is remapped to `0xDEADBEEF`. -/
def RngLCG.new (seed : Nat) : RngLCG :=
  if seed = 0 then ⟨0xDEADBEEF⟩ else ⟨seed % 4294967296⟩

/-- Rust `RngLCG::next_u32`: `state = state * 1664525 + 1013904223`
(wrapping, i.e. mod `2^32`); returns the new state. -/
def RngLCG.next_u32 (r : RngLCG) : Nat × RngLCG :=
  let s := (r.state * 1664525 + 1013904223) % 4294967296
  (s, ⟨s⟩)

/-- Rust `RngLCG::next_f32_01`: `next_u32() as f32 / 4294967296.0`. -/
def RngLCG.next_f32_01 (r : RngLCG) : ℚ × RngLCG :=
  let p := r.next_u32
  ((p.1 : ℚ) / 4294967296, p.2)

/-- Rust `RngLCG::uniform`: `min + (max - min) * next_f32_01()`. -/
def RngLCG.uniform (r : RngLCG) (lo hi : ℚ) : ℚ × RngLCG :=
  let p := r.next_f32_01
  (lo + (hi - lo) * p.1, p.2)

theorem next_f32_01_mem (r : RngLCG) :
    0 ≤ r.next_f32_01.1 ∧ r.next_f32_01.1 < 1 := by
  unfold RngLCG.next_f32_01 RngLCG.next_u32
  constructor
  · positivity
  · rw [div_lt_one (by norm_num)]
    exact_mod_cast Nat.mod_lt _ (by norm_num)

theorem uniform_mem (r : RngLCG) (lo hi : ℚ) (h : lo ≤ hi) :
    lo ≤ (r.uniform lo hi).1 ∧ (r.uniform lo hi).1 ≤ hi := by
  obtain ⟨h0, h1⟩ := next_f32_01_mem r
  have he : (r.uniform lo hi).1 = lo + (hi - lo) * r.next_f32_01.1 := rfl
  rw [he]
  constructor
  · nlinarith
  · nlinarith

/-- Rust f32 `clamp(lo, hi)` (for `lo ≤ hi`, which is the only way the
code calls it): `max lo (min v hi)`. -/
def rclamp (v lo hi : ℚ) : ℚ := max lo (min v hi)

theorem rclamp_mem (v lo hi : ℚ) (h : lo ≤ hi) :
    lo ≤ rclamp v lo hi ∧ rclamp v lo hi ≤ hi := by
  refine ⟨le_max_left _ _, max_le h (min_le_right _ _)⟩

/-- Rust free function `wrap`: coordinates above the bound snap to `0`,
coordinates below `0` snap to the bound, anything else is unchanged. -/
def wrap (v maxv : ℚ) : ℚ :=
  if v > maxv then 0 else if v < 0 then maxv else v

/-- `u32::MAX`, the saturation point of `saturating_add`. -/
def u32max : Nat := 4294967295

/-- Rust `u32::saturating_add(1)`. -/
def satAdd1 (n : Nat) : Nat := min (n + 1) u32max

/-- Rust `terrain_speed_at`: pseudo-noise terrain speed multiplier. -/
def terrain_speed_at (ops : Ops) (x y : ℚ) (t : Nat) : ℚ :=
  let tt := ((t % 10000 : Nat) : ℚ) * 0.001
  let v := ops.sinQ (x * 0.003 + tt) * ops.cosQ (y * 0.002 - tt) * 0.5 + 0.5
  0.6 + v * 0.4

/-- Rust `sample_temperature_c`. -/
def sample_temperature_c (ops : Ops) (x y : ℚ) (t : Nat) : ℚ :=
  let tt := (t : ℚ) * 0.01
  20 + (ops.sinQ (x * 0.001 + tt) + ops.cosQ (y * 0.001 - tt * 0.7)) * 5

/-- Rust `sample_humidity01`. -/
def sample_humidity01 (ops : Ops) (x y : ℚ) (t : Nat) : ℚ :=
  let tt := (t : ℚ) * 0.008
  rclamp ((ops.sinQ (x * 0.0007 + y * 0.0005 + tt) * 0.5 + 0.5) * 0.9) 0 1

/-- Rust `sample_rain01` (which ignores its `x` argument). -/
def sample_rain01 (ops : Ops) (_x y : ℚ) (t : Nat) : ℚ :=
  let tt := (t : ℚ) * 0.02
  let band := ops.sinQ tt * 0.5 + 0.5
  rclamp (band * (ops.sinQ (y * 0.002 + tt * 0.3) * 0.5 + 0.5)) 0 1

/-- Rust `sample_wetness01`: rain sampled 50 ticks earlier (saturating)
blended with current humidity. -/
def sample_wetness01 (ops : Ops) (x y : ℚ) (t : Nat) : ℚ :=
  let r := sample_rain01 ops x y (t - 50)
  rclamp (r * 0.7 + sample_humidity01 ops x y t * 0.3) 0 1

/-- Rust `sample_wind_speed`. -/
def sample_wind_speed (ops : Ops) (x y : ℚ) (t : Nat) : ℚ :=
  let tt := (t : ℚ) * 0.015
  rclamp (ops.sinQ (x * 0.0009 + tt) * ops.cosQ (y * 0.0006 - tt) * 0.5 + 0.5) 0 1

/-- Rust `sample_elevation01`. -/
def sample_elevation01 (ops : Ops) (x y : ℚ) : ℚ :=
  let nx := ops.sinQ (x * 0.001) * 0.5 + 0.5
  let ny := ops.cosQ (y * 0.001) * 0.5 + 0.5
  rclamp ((nx * 0.6 + ny * 0.4) * 0.9) 0 1

/-- Rust `sample_noise01`. -/
def sample_noise01 (ops : Ops) (x y : ℚ) (t : Nat) : ℚ :=
  let tt := (t : ℚ) * 0.05
  rclamp (ops.sinQ (x * 0.004 + tt) * ops.sinQ (y * 0.003 - tt) * 0.5 + 0.5) 0 1

/-- Rust `nearest_herbivore`: scans `a` then `b`, keeping the first
strictly closer herbivore (squared distances, initial best `∞`). -/
def nearest_herbivore (x y : ℚ) (a b : List Creature) : Option (ℚ × ℚ) :=
  let best := (a ++ b).foldl
    (fun (best : Option (ℚ × ℚ × ℚ)) c =>
      if c.diet = Diet.Herbivore then
        let dx := c.x - x
        let dy := c.y - y
        let d2 := dx * dx + dy * dy
        match best with
        | some (_, _, bd) => if d2 < bd then some (c.x, c.y, d2) else best
        | none => some (c.x, c.y, d2)
      else best) none
  best.map (fun p => (p.1, p.2.1))

/-- Rust `nearest_carnivore`: scans `a` then `b`; a candidate replaces
the best exactly when there is none yet or its (square-rooted) distance
is strictly smaller. -/
def nearest_carnivore (ops : Ops) (x y : ℚ) (a b : List Creature) :
    Option (ℚ × ℚ) :=
  let best := (a ++ b).foldl
    (fun (best : Option (ℚ × ℚ × ℚ)) c =>
      if c.diet = Diet.Carnivore then
        let dx := c.x - x
        let dy := c.y - y
        let d := ops.sqrtQ (dx * dx + dy * dy)
        match best with
        | some (_, _, bd) => if d < bd then some (c.x, c.y, d) else best
        | none => some (c.x, c.y, d)
      else best) none
  best.map (fun p => (p.1, p.2.1))

/-- Rust `plants_near`: is any plant within `radius` of `(x, y)`? -/
def plants_near (plants : List Plant) (x y radius : ℚ) : Bool :=
  let r2 := radius * radius
  plants.any (fun p =>
    decide ((p.x - x) * (p.x - x) + (p.y - y) * (p.y - y) ≤ r2))

/-- Pad with zeros to length `need` and truncate to `need`
(the `extend`/`truncate` pair in Rust `build_inputs`). -/
def padTo (need : Nat) (v : List ℚ) : List ℚ :=
  (v ++ List.replicate (need - v.length) 0).take need

/-- Rust `build_inputs`: the perceptual feature vector for one creature.
`a`/`b` are the already-updated prefix and the untouched suffix of the
population (self excluded). -/
def build_inputs (ops : Ops) (width height : ℚ) (tick : Nat) (c : Creature)
    (a b : List Creature) (mode : BrainMode) : List ℚ :=
  let nx := c.x / width
  let ny := c.y / height
  let spx := ops.tanhQ c.vx
  let spy := ops.tanhQ c.vy
  let e := rclamp (c.energy / 100) 0 1
  let h := rclamp (c.health / 100) 0 1
  let t := (tick : ℚ) * 0.01
  let ts := ops.sinQ t
  let tc := ops.cosQ t
  let herb := nearest_herbivore c.x c.y a b
  let dh : ℚ × ℚ × ℚ :=
    match herb with
    | some (tx, ty) =>
      let dx := tx - c.x
      let dy := ty - c.y
      let d := max (ops.sqrtQ (dx * dx + dy * dy)) 0.0001
      (dx / d, dy / d, rclamp (d / max width height) 0 1)
    | none => (0, 0, 1)
  let v := [nx, ny, spx, spy, e, h, ts, tc, dh.1, dh.2.1, dh.2.2]
  match mode with
  | BrainMode.OG => padTo 14 (v ++ [1])
  | BrainMode.Zegion =>
    let pred := nearest_carnivore ops c.x c.y a b
    let dc : ℚ × ℚ × ℚ :=
      match pred with
      | some (px, py) =>
        let dx := px - c.x
        let dy := py - c.y
        let d := max (ops.sqrtQ (dx * dx + dy * dy)) 0.0001
        (dx / d, dy / d, rclamp (d / max width height) 0 1)
      | none => (0, 0, 1)
    let rough := terrain_speed_at ops c.x c.y tick
    let rough_n := (rough - 0.6) / 0.4
    let speed_mag := ops.tanhQ (ops.sqrtQ (c.vx * c.vx + c.vy * c.vy))
    let dot_herb := spx * dh.1 + spy * dh.2.1
    let dot_carn := spx * dc.1 + spy * dc.2.1
    let ts2 := ops.sinQ (t * 0.37 + c.x * 0.0007 + c.y * 0.0009)
    let tc2 := ops.cosQ (t * 0.41 - c.x * 0.0006 + c.y * 0.0011)
    let diet_carn : ℚ := if c.diet = Diet.Carnivore then 1 else 0
    let inv_e := rclamp (1 - e) 0 1
    padTo 24 (v ++ [dc.1, dc.2.1, dc.2.2, rough, rough_n, speed_mag,
      dot_herb, dot_carn, ts2, tc2, diet_carn, inv_e, 1])

/-- One layer of the forward pass: `out[o] = b[o] + Σ_i w[o*n_in+i]*in[i]`,
ReLU on hidden layers, tanh on the output layer. -/
def layerOut (ops : Ops) (w b cur : List ℚ) (n_in n_out : Nat)
    (isLast : Bool) : List ℚ :=
  (List.range n_out).map (fun o =>
    let s := (List.range n_in).foldl
      (fun acc ii => acc + w.getD (o * n_in + ii) 0 * cur.getD ii 0)
      (b.getD o 0)
    if isLast then ops.tanhQ s else if s > 0 then s else 0)

/-- The layer recursion of Rust `brain_forward`; returns the final
output vector and the activation record of the non-input layers. -/
def forwardRec (ops : Ops) : List Nat → List (List ℚ) → List (List ℚ) →
    Nat → List ℚ → List ℚ × List (List ℚ)
  | [], _, _, _, cur => (cur, [])
  | n_out :: restSz, ws, bs, n_in, cur =>
    let next := layerOut ops (ws.headD []) (bs.headD []) cur n_in n_out
      restSz.isEmpty
    let r := forwardRec ops restSz ws.tail bs.tail n_out next
    (r.1, next :: r.2)

/-- Rust `brain_forward`: the feed-forward pass, returning the outputs
and the full activation record (input vector included). -/
def brain_forward (ops : Ops) (brain : Brain) (inputs : List ℚ) :
    List ℚ × List (List ℚ) :=
  let ws := brain.weights.getD []
  let bs := brain.biases.getD []
  match brain.layer_sizes with
  | [] => (inputs, [inputs])
  | n0 :: restSz =>
    let r := forwardRec ops restSz ws bs n0 inputs
    (r.1, inputs :: r.2)

/-- `n` sequential draws of `uniform(-1,1) * scale` from the RNG, in
order (the weight-filling loop of Rust `init_brain`). -/
def drawWeights (scale : ℚ) : Nat → RngLCG → List ℚ × RngLCG
  | 0, rng => ([], rng)
  | n + 1, rng =>
    let p := rng.uniform (-1) 1
    let r := drawWeights scale n p.2
    (p.1 * scale :: r.1, r.2)

/-- The per-transition loop of Rust `init_brain`: He-style scale
`sqrt(2 / max n_in 1)`, `n_in * n_out` weights drawn in row-major
order, zero biases. -/
def initTrans (ops : Ops) : Nat → List Nat → RngLCG →
    List (List ℚ) × List (List ℚ) × RngLCG
  | _, [], rng => ([], [], rng)
  | n_in, n_out :: restSz, rng =>
    let scale := ops.sqrtQ (2 / max (n_in : ℚ) 1)
    let w := drawWeights scale (n_out * n_in) rng
    let r := initTrans ops n_out restSz w.2
    (w.1 :: r.1, List.replicate n_out 0 :: r.2.1, r.2.2)

/-- Rust `init_brain`. -/
def init_brain (ops : Ops) (layer_sizes : List Nat) (rng : RngLCG) :
    Brain × RngLCG :=
  match layer_sizes with
  | [] => (⟨layer_sizes, some [], some [], none⟩, rng)
  | n0 :: restSz =>
    let r := initTrans ops n0 restSz rng
    (⟨layer_sizes, some r.1, some r.2.1, none⟩, r.2.2)

/-- The bounded retry loop of Rust `init_brain_avoiding_bad`
(`for _ in 0..MAX_TRIES`): hash the candidate; if it is not in the
avoid-set keep it, otherwise reinitialize and continue. -/
def avoidLoop (ops : Ops) (bad : List String) (layer_sizes : List Nat) :
    Nat → Brain → RngLCG → Brain × RngLCG
  | 0, last, rng => (last, rng)
  | n + 1, last, rng =>
    if bad.contains (ops.hashB last) then
      let p := init_brain ops layer_sizes rng
      avoidLoop ops bad layer_sizes n p.1 p.2
    else (last, rng)

/-- Rust `init_brain_avoiding_bad` (`MAX_TRIES = 16`): one initial
attempt; if the avoid-set is empty return it immediately, otherwise run
the 16-iteration retry loop, accepting the final candidate
unconditionally. -/
def init_brain_avoiding_bad (ops : Ops) (layer_sizes : List Nat)
    (rng : RngLCG) (bad : List String) : Brain × RngLCG :=
  let first := init_brain ops layer_sizes rng
  if bad.isEmpty then first
  else avoidLoop ops bad layer_sizes 16 first.1 first.2

/-- Instrumented mirror of `avoidLoop` that additionally counts how
many times `init_brain` is invoked inside the retry loop. -/
def avoidLoopCount (ops : Ops) (bad : List String) (layer_sizes : List Nat) :
    Nat → Brain → RngLCG → Nat
  | 0, _, _ => 0
  | n + 1, last, rng =>
    if bad.contains (ops.hashB last) then
      let p := init_brain ops layer_sizes rng
      avoidLoopCount ops bad layer_sizes n p.1 p.2 + 1
    else 0

/-- Total number of `init_brain` invocations (initialization attempts)
performed by `init_brain_avoiding_bad` on the same inputs. -/
def initAttempts (ops : Ops) (layer_sizes : List Nat) (rng : RngLCG)
    (bad : List String) : Nat :=
  let first := init_brain ops layer_sizes rng
  if bad.isEmpty then 1
  else 1 + avoidLoopCount ops bad layer_sizes 16 first.1 first.2

/-- The `n`-th candidate brain (0-indexed) of the sequence produced by
repeatedly calling `init_brain` on the advancing RNG stream. -/
def nthCand (ops : Ops) (layer_sizes : List Nat) : Nat → RngLCG → Brain
  | 0, rng => (init_brain ops layer_sizes rng).1
  | n + 1, rng => nthCand ops layer_sizes n (init_brain ops layer_sizes rng).2

/-- The layer sizes selected for a topology mode (the `match` repeated at
every `init_brain_avoiding_bad` call site in the Rust code). -/
def modeSizes (mode : BrainMode) : List Nat :=
  match mode with
  | BrainMode.OG => [14, 8, 8]
  | BrainMode.Zegion => [24, 16, 6]

/-- The guarded energy deduction idiom of `World::step`:
`if b { e = (e - c).max(0.0) }`. -/
def floorCost (b : Bool) (c e : ℚ) : ℚ :=
  if b then max (e - c) 0 else e

/-- The eat-behavior energy update of `World::step`:
`e = (e + 0.15).min(100.0)` then `e = (e - c).max(0.0)`, guarded. -/
def eatStep (b : Bool) (c e : ℚ) : ℚ :=
  if b then max (min (e + 0.15) 100 - c) 0 else e

/-- The environmental energy deduction of `World::step`:
`if env_total != 0.0 { energy = (energy - env_total * t_sec).max(0.0) }`. -/
def envFloor (envt tsec e : ℚ) : ℚ :=
  if envt ≠ 0 then max (e - envt * tsec) 0 else e

/-- The successive energy values through the behavior-cost block of
`World::step` (lines 299-339 of the Rust source), in program order:
eat (intake capped at 100, then harvest cost floored at 0), sprint flat
cost, sprint overflow, posture, attack attempt, drinking, locomotion —
every deduction floored at 0. -/
def energySteps (cfg : Config) (dt : ℚ)
    (eatHit boost rest attackHit drinkHit : Bool) (speed_mag e0 : ℚ) :
    List ℚ :=
  let e1 := eatStep eatHit (cfg.harvest_plant_action_cost_per_second * dt * 60) e0
  let e2 := floorCost boost 0.1 e1
  let e3 := floorCost (boost && decide (speed_mag > 2.5))
    (cfg.sprint_overflow_cost_per_sec * dt * 60) e2
  let e4 := floorCost (!rest && decide (speed_mag < 0.05))
    (cfg.posture_cost_per_sec * dt * 60) e3
  let e5 := floorCost attackHit (cfg.attack_cost_per_hit_energy * dt * 60) e4
  let e6 := floorCost drinkHit (cfg.drink_cost_per_second * dt * 60) e5
  let e7 := max (e6 - cfg.move_cost_coeff_per_speed_per_sec * speed_mag * dt * 60) 0
  [e0, e1, e2, e3, e4, e5, e6, e7]

/-- The energy left after the behavior-cost block (the last entry of
`energySteps`). -/
def energyAfterCosts (cfg : Config) (dt : ℚ)
    (eatHit boost rest attackHit drinkHit : Bool) (speed_mag e0 : ℚ) : ℚ :=
  (energySteps cfg dt eatHit boost rest attackHit drinkHit speed_mag e0).getLastD e0

/-- The acceleration magnitude of `World::step`:
`0.35 * speed_mult * (0.5 + a_scale)`, amplified 1.5x when boosting. -/
def accelOf (boost : Bool) (sm asc : ℚ) : ℚ :=
  (if boost then (1.5 : ℚ) else 1) * (0.35 * sm * (0.5 + asc))

/-- The velocity damping of `World::step`: `v *= 0.99`, then `v *= 0.9`
when resting. -/
def dampVel (rest : Bool) (v : ℚ) : ℚ :=
  if rest then v * 0.99 * 0.9 else v * 0.99

/-- The health pipeline of `World::step`: rest regeneration (capped at
100, only applied below 100), then — when not resting — ambient decay
scaled by the normalized age, floored at 0. -/
def healthSteps (cfg : Config) (dt : ℚ) (rest : Bool) (lifespan : Nat)
    (h0 : ℚ) : ℚ :=
  let h1 := if rest && decide (h0 < 100) then
      min (h0 + cfg.rest_health_regen_per_sec * dt * 60) 100
    else h0
  let age_norm := rclamp ((lifespan : ℚ) / (60 * 60 * 60)) 0 1
  let ambient := cfg.ambient_health_decay_per_sec *
    (1 + cfg.aging_health_decay_coeff * age_norm)
  if !rest then max (h1 - ambient * dt * 60) 0 else h1

/-- The brain output vector a creature steers by in `World::step`. -/
def brainOut (ops : Ops) (mode : BrainMode) (width height : ℚ)
    (tick : Nat) (left rest : List Creature) (c0 : Creature) : List ℚ :=
  (brain_forward ops c0.brain (build_inputs ops width height tick c0 left rest mode)).1

/-- The offspring-spawning loop of `World::step` (`for k in 0..count`):
per offspring, draw the jitter angle and radius, clamp the spawn
position into the world rectangle, initialize a brain under the active
topology mode (with bad-hash avoidance), then draw the velocity. -/
def spawnOffspring (ops : Ops) (mode : BrainMode) (width height : ℚ)
    (tick : Nat) (px py : ℚ) (diet : Diet) (bad : List String) :
    Nat → Nat → RngLCG → List Creature × RngLCG
  | _, 0, rng => ([], rng)
  | k, n + 1, rng =>
    let a := rng.next_f32_01
    let angle := (k : ℚ) * 0.7 + a.1 * 6.2831
    let b := a.2.next_f32_01
    let r := 4 + b.1 * 6
    let nx := rclamp (px + ops.cosQ angle * r) 0 width
    let ny := rclamp (py + ops.sinQ angle * r) 0 height
    let ib := init_brain_avoiding_bad ops (modeSizes mode) b.2 bad
    let v1 := ib.2.uniform (-0.5) 0.5
    let v2 := v1.2.uniform (-0.5) 0.5
    let nb : Creature :=
      { id := "c" ++ Nat.repr (tick + k)
        x := nx, y := ny, vx := v1.1, vy := v2.1
        radius := 4, health := 100, energy := 80
        stamina := 100, max_stamina := 100, thirst := 100
        lifespan := 0, diet := diet, brain := ib.1
        is_pregnant := false, gestation_timer := 0, offspring_count := 1
        actions_mask := 0, feelings_mask := 0, stagnant_ticks := 0
        last_env_total := 0, last_env_swim := 0, last_env_wind := 0
        last_env_cold := 0, last_env_heat := 0, last_env_humid := 0
        last_env_oxy := 0, last_env_noise := 0, last_env_disease := 0
        last_locomotion := 0 }
    let rest := spawnOffspring ops mode width height tick px py diet bad (k + 1) n v2.2
    (nb :: rest.1, rest.2)

/-- Result of the gestation/birth block for one creature: the energy
after reproduction costs, the new gestation state, the buffered
newborns, and the advanced RNG. -/
structure PregOut where
  energy : ℚ
  gtimer : ℚ
  pregnant : Bool
  ocount : Nat
  newborns : List Creature
  rng : RngLCG

/-- One creature's update inside `World::step` (lines 260-476 of the
Rust source).  `left` is the already-updated prefix of the population,
`rest` the not-yet-updated suffix (the `split_at_mut` views).  Returns
the updated creature, the newborns it buffered, and the advanced RNG. -/
def updateCreature (ops : Ops) (cfg : Config) (mode : BrainMode)
    (width height : ℚ) (tick : Nat) (plants : List Plant)
    (bad : List String) (dt : ℚ) (left rest : List Creature)
    (c0 : Creature) (rng0 : RngLCG) : Creature × List Creature × RngLCG :=
  let speed_mult := terrain_speed_at ops c0.x c0.y tick
  let inputs := build_inputs ops width height tick c0 left rest mode
  let fw := brain_forward ops c0.brain inputs
  let out := fw.1
  let acts := fw.2
  let ax := ops.tanhQ (out.getD 0 0)
  let ay := ops.tanhQ (out.getD 1 0)
  let a_scale := |ops.tanhQ (out.getD 2 0)|
  let eat_sig := ops.tanhQ (out.getD 3 0)
  let rest_sig := ops.tanhQ (out.getD 4 0)
  let boost_sig := ops.tanhQ (out.getD 5 0)
  let wants_boost : Bool := decide (boost_sig > 0.5)
  let accel := accelOf wants_boost speed_mult a_scale
  let vx1 := c0.vx + ax * accel
  let vy1 := c0.vy + ay * accel
  let x1 := c0.x + vx1 * dt * 60 * speed_mult
  let y1 := c0.y + vy1 * dt * 60 * speed_mult
  let wants_rest : Bool := decide (rest_sig > 0.5)
  let vx3 := dampVel wants_rest vx1
  let vy3 := dampVel wants_rest vy1
  let stamina1 := if wants_rest then
      min (c0.stamina + cfg.rest_stamina_regen_per_sec * dt * 60) c0.max_stamina
    else c0.stamina
  let wants_eat : Bool := decide (eat_sig > 0.5)
  let near_plant := plants_near plants x1 y1 (c0.radius + 5)
  let eatHit := wants_eat && near_plant
  let speed_mag := ops.sqrtQ (vx3 * vx3 + vy3 * vy3)
  let attackHit := decide (c0.diet = Diet.Carnivore) && wants_boost &&
    (nearest_herbivore x1 y1 left rest).isSome
  let drinkHit := near_plant && decide (c0.thirst < cfg.thirst_threshold)
  let stamina2 := if wants_boost then
      max (stamina1 - cfg.attack_cost_per_hit_stamina * 0) 0
    else stamina1
  let thirst1 := if drinkHit then
      min (c0.thirst + cfg.thirst_recovery_per_sec * dt * 60) 100
    else c0.thirst
  let locomotion := cfg.move_cost_coeff_per_speed_per_sec * speed_mag
  let energy7 := energyAfterCosts cfg dt eatHit wants_boost wants_rest
    attackHit drinkHit speed_mag c0.energy
  let t_sec := dt * 60
  let temp_c := sample_temperature_c ops x1 y1 tick
  let humid01 := sample_humidity01 ops x1 y1 tick
  let wind := sample_wind_speed ops x1 y1 tick
  let elev01 := sample_elevation01 ops x1 y1
  let noise01 := sample_noise01 ops x1 y1 tick
  let in_water : Bool := decide (y1 < height * 0.12) || decide (y1 > height * 0.88)
  let env_swim := if in_water then cfg.swim_energy_cost_per_sec else 0
  let env_wind := cfg.wind_drag_coeff * wind * speed_mag
  let env_cold := if temp_c < cfg.comfort_low_c then
      cfg.temp_cold_penalty_per_sec * max (cfg.comfort_low_c - temp_c) 0 / 10
    else 0
  let env_heat := if temp_c > cfg.comfort_high_c then
      cfg.temp_heat_penalty_per_sec * max (temp_c - cfg.comfort_high_c) 0 / 10
    else 0
  let env_humid := if humid01 > cfg.humidity_threshold then
      cfg.humidity_dehydration_coeff_per_sec * max (humid01 - cfg.humidity_threshold) 0
    else 0
  let env_oxy := if elev01 > cfg.thin_air_elevation_cutoff01 then
      cfg.oxygen_thin_air_penalty_per_sec * max (elev01 - cfg.thin_air_elevation_cutoff01) 0
    else 0
  let env_noise := cfg.noise_stress_penalty_per_sec * noise01
  let env_disease := cfg.disease_energy_drain_per_sec
  let env_total := env_swim + env_wind + env_cold + env_heat + env_humid +
    env_oxy + env_noise + env_disease
  let energy8 := envFloor env_total t_sec energy7
  let health2 := healthSteps cfg dt wants_rest c0.lifespan c0.health
  let p : PregOut :=
    if c0.is_pregnant then
      let oc : ℚ := (max c0.offspring_count 1 : Nat)
      let gest_e := cfg.gestation_base_cost_per_sec +
        cfg.gestation_cost_per_offspring_per_sec * oc
      let e9 := max (energy8 - gest_e * dt * 60) (-50)
      let gt := c0.gestation_timer + dt * 60
      if gt ≥ cfg.gestation_period then
        let e10 := max (e9 - cfg.birth_event_cost_energy) (-50)
        let u := rng0.next_f32_01
        let rand_factor := 0.5 + u.1
        let mut_cost := cfg.mutation_cost_energy_base +
          cfg.mutation_cost_per_std_change * oc * rand_factor
        let e11 := max (e10 - mut_cost) (-50)
        let sp := spawnOffspring ops mode width height tick x1 y1 c0.diet
          bad 0 (max c0.offspring_count 1) u.2
        ⟨e11, 0, false, 1, sp.1, sp.2⟩
      else ⟨e9, gt, true, c0.offspring_count, [], rng0⟩
    else ⟨energy8, c0.gestation_timer, c0.is_pregnant, c0.offspring_count, [], rng0⟩
  let x2 := wrap x1 width
  let y2 := wrap y1 height
  let energyF := rclamp p.energy (-50) 100
  let healthF := rclamp health2 0 100
  let feelingsF : Nat :=
    (if thirst1 < cfg.thirst_threshold then 1 else 0) |||
    (if energyF < cfg.hunger_energy_threshold then 2 else 0) |||
    (if stamina2 < cfg.fatigue_stamina_threshold then 4 else 0)
  let speed2 := ops.sqrtQ (vx3 * vx3 + vy3 * vy3)
  let stagnant1 := if speed2 < cfg.movement_threshold then
      satAdd1 c0.stagnant_ticks
    else 0
  let feelingsG := if stagnant1 ≥ cfg.stagnant_ticks_limit then
      feelingsF ||| 8
    else feelingsF
  let actionsF : Nat :=
    (if wants_rest then 1 else 0) |||
    (if eatHit then 2 else 0) |||
    (if wants_boost then 4 else 0) |||
    (if attackHit then 8 else 0) |||
    (if drinkHit then 16 else 0)
  let c1 : Creature :=
    { c0 with
      x := x2, y := y2, vx := vx3, vy := vy3
      health := healthF, energy := energyF
      stamina := stamina2, thirst := thirst1
      lifespan := satAdd1 c0.lifespan
      is_pregnant := p.pregnant, gestation_timer := p.gtimer
      offspring_count := p.ocount
      actions_mask := actionsF, feelings_mask := feelingsG
      stagnant_ticks := stagnant1
      brain := { c0.brain with activations := some acts }
      last_env_total := env_total, last_env_swim := env_swim
      last_env_wind := env_wind, last_env_cold := env_cold
      last_env_heat := env_heat, last_env_humid := env_humid
      last_env_oxy := env_oxy, last_env_noise := env_noise
      last_env_disease := env_disease, last_locomotion := locomotion }
  (c1, p.newborns, p.rng)

/-- The population loop of `World::step`: creatures are processed in
order; each sees the already-updated prefix (`done`) and the untouched
suffix; newborns are buffered. -/
def stepLoop (ops : Ops) (cfg : Config) (mode : BrainMode)
    (width height : ℚ) (tick : Nat) (plants : List Plant)
    (bad : List String) (dt : ℚ) :
    List Creature → List Creature → List Creature → RngLCG →
    List Creature × List Creature × RngLCG
  | done, [], nbs, rng => (done, nbs, rng)
  | done, c :: todo, nbs, rng =>
    let r := updateCreature ops cfg mode width height tick plants bad dt
      done todo c rng
    stepLoop ops cfg mode width height tick plants bad dt
      (done ++ [r.1]) todo (nbs ++ r.2.1) r.2.2

/-- Conversion of a dead creature into a corpse (the `Corpse` literal
pushed in `World::step`): same position and radius, remaining energy
`max energy 0`, decay timer initialized to the constant 100. -/
def corpseOfCreature (c : Creature) : Corpse :=
  { x := c.x, y := c.y, radius := c.radius
    energy_remaining := max c.energy 0
    initial_decay_time := 100, decay_timer := 100
    last_decay_total := 0, last_decay_base := 0, last_decay_temp := 0
    last_decay_humid := 0, last_decay_rain := 0, last_decay_wet := 0 }

/-- Whether `World::step` removes a creature: `health ≤ 0 || energy ≤ 0`. -/
def isDead (c : Creature) : Bool :=
  decide (c.health ≤ 0) || decide (c.energy ≤ 0)

/-- The drain loop of `World::step`: partition the population into the
survivors (in order) and the corpses of the dead (in order). -/
def partitionDead : List Creature → List Creature × List Corpse
  | [] => ([], [])
  | c :: cs =>
    let r := partitionDead cs
    if isDead c then (r.1, corpseOfCreature c :: r.2)
    else (c :: r.1, r.2)

/-- One corpse's decay step in `World::step`: the decay rate is
`max (base + temp/humidity/rain/wetness contributions) 0`, the timer is
decremented by `dt * 60 * rate` and floored at 0, and the decay
telemetry is recorded. -/
def decayCorpse (ops : Ops) (cfg : Config) (tick : Nat) (dt : ℚ)
    (co : Corpse) : Corpse :=
  let temp_c := sample_temperature_c ops co.x co.y tick
  let humid01 := sample_humidity01 ops co.x co.y tick
  let rain01 := sample_rain01 ops co.x co.y tick
  let wet01 := sample_wetness01 ops co.x co.y tick
  let base := max cfg.corpse_base_decay_per_sec 0
  let temp_term := (temp_c - 20) / 15
  let contrib_temp := base * cfg.corpse_temp_decay_coeff * rclamp temp_term 0 2
  let contrib_humid := base * cfg.corpse_humidity_decay_coeff * max humid01 0
  let contrib_rain := base * cfg.corpse_rain_decay_coeff * max rain01 0
  let contrib_wet := base * cfg.corpse_wetness_decay_coeff * max wet01 0
  let rate := max (base + contrib_temp + contrib_humid + contrib_rain + contrib_wet) 0
  let t1 := co.decay_timer - dt * 60 * rate
  { co with
    decay_timer := if t1 < 0 then 0 else t1
    last_decay_base := base
    last_decay_temp := max contrib_temp 0
    last_decay_humid := max contrib_humid 0
    last_decay_rain := max contrib_rain 0
    last_decay_wet := max contrib_wet 0
    last_decay_total := rate }

/-- The corpse pipeline of `World::step`: decay every corpse, then
retain exactly those whose timer is still strictly positive. -/
def corpsePhase (ops : Ops) (cfg : Config) (tick : Nat) (dt : ℚ)
    (cs : List Corpse) : List Corpse :=
  (cs.map (decayCorpse ops cfg tick dt)).filter
    (fun co => decide (co.decay_timer > 0))

/-- Rust `struct World`. -/
structure World where
  width : ℚ
  height : ℚ
  tick : Nat
  creatures : List Creature
  plants : List Plant
  corpses : List Corpse
  brain_mode : BrainMode
  rng : RngLCG
  bad_brain_hashes : List String
  config : Config

/-- The population phase of `World::step`: the updated creatures with
the buffered newborns appended, plus the advanced RNG. -/
def midCreatures (ops : Ops) (w : World) (dt : ℚ) :
    List Creature × RngLCG :=
  let r := stepLoop ops w.config w.brain_mode w.width w.height (w.tick + 1)
    w.plants w.bad_brain_hashes dt [] w.creatures [] w.rng
  (r.1 ++ r.2.1, r.2.2)

/-- Rust `World::step`: advance the tick, update every creature (and
append newborns), drain the dead into corpses, then decay/remove
corpses. -/
def step (ops : Ops) (w : World) (dt : ℚ) : World :=
  let m := midCreatures ops w dt
  let pd := partitionDead m.1
  { w with
    tick := w.tick + 1
    creatures := pd.1
    corpses := corpsePhase ops w.config (w.tick + 1) dt (w.corpses ++ pd.2)
    rng := m.2 }

/-- Iterated corpse pipeline with the tick advancing, as repeated
`step(dt)` calls apply it to a corpse population that stays dead-quiet
otherwise. -/
def iterCorpse (ops : Ops) (cfg : Config) (dt : ℚ) :
    Nat → Nat → List Corpse → List Corpse
  | _, 0, cs => cs
  | t, n + 1, cs => iterCorpse ops cfg dt (t + 1) n (corpsePhase ops cfg (t + 1) dt cs)

/-- The creature literal of `World::new` (50 of these are pushed):
RNG draw order is x, y, vx, vy, diet, then the brain. -/
def mkCreatureInit (ops : Ops) (width height : ℚ) (i : Nat)
    (rng : RngLCG) : Creature × RngLCG :=
  let px := rng.uniform 0 width
  let py := px.2.uniform 0 height
  let uvx := py.2.uniform (-1) 1
  let uvy := uvx.2.uniform (-1) 1
  let ud := uvy.2.next_f32_01
  let diet := if ud.1 > 0.8 then Diet.Carnivore else Diet.Herbivore
  let ib := init_brain_avoiding_bad ops [14, 8, 8] ud.2 []
  ({ id := "c" ++ Nat.repr i
     x := px.1, y := py.1, vx := uvx.1 * 2, vy := uvy.1 * 2
     radius := 5, health := 100, energy := 100
     stamina := 100, max_stamina := 100, thirst := 100
     lifespan := 0, diet := diet, brain := ib.1
     is_pregnant := false, gestation_timer := 0, offspring_count := 1
     actions_mask := 0, feelings_mask := 0, stagnant_ticks := 0
     last_env_total := 0, last_env_swim := 0, last_env_wind := 0
     last_env_cold := 0, last_env_heat := 0, last_env_humid := 0
     last_env_oxy := 0, last_env_noise := 0, last_env_disease := 0
     last_locomotion := 0 }, ib.2)

/-- The population loop of `World::new` (`for i in 0..50`). -/
def mkCreatures (ops : Ops) (width height : ℚ) :
    Nat → Nat → RngLCG → List Creature × RngLCG
  | _, 0, rng => ([], rng)
  | i, n + 1, rng =>
    let c := mkCreatureInit ops width height i rng
    let r := mkCreatures ops width height (i + 1) n c.2
    (c.1 :: r.1, r.2)

/-- The plant loop of `World::new` (`for _ in 0..150`). -/
def mkPlants (width height : ℚ) : Nat → RngLCG → List Plant × RngLCG
  | 0, rng => ([], rng)
  | n + 1, rng =>
    let px := rng.uniform 0 width
    let py := px.2.uniform 0 height
    let r := mkPlants width height n py.2
    ({ x := px.1, y := py.1, radius := 3 } :: r.1, r.2)

/-- Rust `World::new`: 50 creatures, 150 plants, no corpses, OG mode,
empty avoid-set, default config, tick 0. -/
def World.new (ops : Ops) (width height : ℚ) (seed : Nat) : World :=
  let rng0 := RngLCG.new seed
  let cs := mkCreatures ops width height 0 50 rng0
  let ps := mkPlants width height 150 cs.2
  { width := width, height := height, tick := 0
    creatures := cs.1, plants := ps.1, corpses := []
    brain_mode := BrainMode.OG, rng := ps.2
    bad_brain_hashes := [], config := defaultConfig }

/-- Rust `World::set_config`: the host boundary hands over either a
successfully deserialized `Config` (`some`) or a malformed payload
(`none`); only the former replaces the stored config, wholesale. -/
def set_config (w : World) (input : Option Config) : World :=
  match input with
  | some cfg => { w with config := cfg }
  | none => w

/-- ASCII lower-casing of one character (Rust `to_ascii_lowercase`). -/
def asciiLower (c : Char) : Char :=
  if 'A' ≤ c ∧ c ≤ 'Z' then Char.ofNat (c.toNat + 32) else c

/-- Rust `str::eq_ignore_ascii_case`. -/
def eqIgnoreAsciiCase (s t : String) : Bool :=
  s.data.map asciiLower == t.data.map asciiLower

/-- The brain-reinitialization loop of `World::set_brain_mode`. -/
def reinitBrains (ops : Ops) (bad : List String) (layer_sizes : List Nat) :
    List Creature → RngLCG → List Creature × RngLCG
  | [], rng => ([], rng)
  | c :: cs, rng =>
    let ib := init_brain_avoiding_bad ops layer_sizes rng bad
    let r := reinitBrains ops bad layer_sizes cs ib.2
    ({ c with brain := ib.1 } :: r.1, r.2)

/-- Rust `World::set_brain_mode`: parse the mode string
(case-insensitive "Zegion", everything else OG); if unchanged return
immediately, otherwise switch and reinitialize every creature's brain. -/
def set_brain_mode (ops : Ops) (w : World) (mode : String) : World :=
  let new_mode := if eqIgnoreAsciiCase mode "Zegion" then BrainMode.Zegion
    else BrainMode.OG
  if new_mode = w.brain_mode then w
  else
    let r := reinitBrains ops w.bad_brain_hashes (modeSizes new_mode)
      w.creatures w.rng
    { w with brain_mode := new_mode, creatures := r.1, rng := r.2 }

/-! ### Shared helper lemmas -/

theorem partitionDead_fst (l : List Creature) :
    (partitionDead l).1 = l.filter (fun c => !isDead c) := by
  induction l with
  | nil => rfl
  | cons c cs ih =>
    by_cases h : isDead c <;> simp [partitionDead, h, List.filter, ih]

theorem partitionDead_snd (l : List Creature) :
    (partitionDead l).2 = (l.filter isDead).map corpseOfCreature := by
  induction l with
  | nil => rfl
  | cons c cs ih =>
    by_cases h : isDead c <;> simp [partitionDead, h, List.filter, ih]

theorem partitionDead_length (l : List Creature) :
    (partitionDead l).2.length + (partitionDead l).1.length = l.length := by
  induction l with
  | nil => rfl
  | cons c cs ih =>
    by_cases h : isDead c <;>
      simp [partitionDead, h, Nat.succ_eq_add_one] <;> omega

theorem partitionDead_all_alive (l : List Creature)
    (h : ∀ c ∈ l, isDead c = false) : partitionDead l = (l, []) := by
  induction l with
  | nil => rfl
  | cons c cs ih =>
    have hc := h c (List.mem_cons_self c cs)
    have := ih (fun x hx => h x (List.mem_cons_of_mem c hx))
    simp [partitionDead, hc, this]

theorem partitionDead_fst_subset (l : List Creature) :
    ∀ c ∈ (partitionDead l).1, c ∈ l := by
  intro c hc
  rw [partitionDead_fst] at hc
  exact List.mem_of_mem_filter hc

/-- C6: the position wrap maps a coordinate strictly above the axis
bound to 0, a coordinate strictly below 0 to the bound, and leaves
every in-range coordinate unchanged (so it is the asymmetric
clamp-style wrap, not a modular wrap).  The bound is nonnegative in
every world the code builds. -/
theorem wrap_characterization (v m : ℚ) (hm : 0 ≤ m) :
    (m < v → wrap v m = 0) ∧ (v < 0 → wrap v m = m) ∧
    (0 ≤ v → v ≤ m → wrap v m = v) := by
  refine ⟨fun h => ?_, fun h => ?_, fun h1 h2 => ?_⟩ <;>
    simp only [wrap] <;> split_ifs <;> first
      | rfl
      | linarith

theorem wrap_characterization_witness :
    wrap 150 100 = 0 ∧ wrap (-3) 100 = 100 ∧ wrap 50 100 = 50 :=
  ⟨(wrap_characterization 150 100 (by norm_num)).1 (by norm_num),
   (wrap_characterization (-3) 100 (by norm_num)).2.1 (by norm_num),
   (wrap_characterization 50 100 (by norm_num)).2.2 (by norm_num) (by norm_num)⟩

/-- C7: `set_config` replaces the configuration wholesale when the
payload deserializes, and leaves the world (in particular the stored
config, every field of it) completely unchanged when it is malformed. -/
theorem set_config_spec (w : World) (cfg : Config) :
    set_config w (some cfg) = { w with config := cfg } ∧
    (set_config w (some cfg)).config = cfg ∧
    set_config w none = w :=
  ⟨rfl, rfl, rfl⟩

/-- C3: in every step, the survivors are exactly the creatures with
health > 0 and energy > 0, the newly appended corpses are exactly the
images of the dead creatures under `corpseOfCreature` (hence equally
many), and each such corpse keeps its source's position, records
`max energy 0` as remaining energy, and starts its decay timer at the
constant 100. -/
theorem step_death_corpse_conservation (ops : Ops) (w : World) (dt : ℚ) :
    (step ops w dt).creatures = (partitionDead (midCreatures ops w dt).1).1 ∧
    (step ops w dt).corpses = corpsePhase ops w.config (w.tick + 1) dt
      (w.corpses ++ (partitionDead (midCreatures ops w dt).1).2) ∧
    (partitionDead (midCreatures ops w dt).1).1 =
      (midCreatures ops w dt).1.filter (fun c => !isDead c) ∧
    (partitionDead (midCreatures ops w dt).1).2 =
      ((midCreatures ops w dt).1.filter isDead).map corpseOfCreature ∧
    (partitionDead (midCreatures ops w dt).1).2.length +
      (partitionDead (midCreatures ops w dt).1).1.length =
      (midCreatures ops w dt).1.length ∧
    (∀ c : Creature, (corpseOfCreature c).x = c.x ∧
      (corpseOfCreature c).y = c.y ∧
      (corpseOfCreature c).energy_remaining = max c.energy 0 ∧
      (corpseOfCreature c).decay_timer = 100) :=
  ⟨rfl, rfl, partitionDead_fst _, partitionDead_snd _, partitionDead_length _,
   fun _ => ⟨rfl, rfl, rfl, rfl⟩⟩

/-- C10: `set_brain_mode` selects Zegion exactly for strings equal to
"Zegion" up to ASCII case and OG for every other string, and is a
complete no-op (same creatures, same brains, same RNG) when the
selected mode is already active. -/
theorem set_brain_mode_spec (ops : Ops) (w : World) (s : String) :
    (set_brain_mode ops w s).brain_mode =
      (if eqIgnoreAsciiCase s "Zegion" then BrainMode.Zegion else BrainMode.OG) ∧
    ((if eqIgnoreAsciiCase s "Zegion" then BrainMode.Zegion else BrainMode.OG) =
        w.brain_mode → set_brain_mode ops w s = w) := by
  constructor
  · by_cases h : (if eqIgnoreAsciiCase s "Zegion" then BrainMode.Zegion
        else BrainMode.OG) = w.brain_mode
    · simp [set_brain_mode, h]
    · simp [set_brain_mode, h]
  · intro h
    simp [set_brain_mode, h]

/-- A concrete creature used to instantiate theorems on explicit
inputs: not pregnant, mid energy, empty brain. -/
def creature0 : Creature :=
  { id := "c0", x := 5, y := 5, vx := 0, vy := 0, radius := 5
    health := 100, energy := 50, stamina := 100, max_stamina := 100
    thirst := 100, lifespan := 0, diet := Diet.Herbivore
    brain := ⟨[], some [], some [], none⟩
    is_pregnant := false, gestation_timer := 0, offspring_count := 1
    actions_mask := 0, feelings_mask := 0, stagnant_ticks := 0
    last_env_total := 0, last_env_swim := 0, last_env_wind := 0
    last_env_cold := 0, last_env_heat := 0, last_env_humid := 0
    last_env_oxy := 0, last_env_noise := 0, last_env_disease := 0
    last_locomotion := 0 }

/-- A concrete world with one (OG) brain mode, used to instantiate
theorems on explicit inputs. -/
def world0 : World :=
  { width := 100, height := 100, tick := 0, creatures := [], plants := []
    corpses := [], brain_mode := BrainMode.OG, rng := ⟨1⟩
    bad_brain_hashes := [], config := defaultConfig }

theorem set_brain_mode_spec_witness :
    set_brain_mode trivOps world0 "og" = world0 :=
  (set_brain_mode_spec trivOps world0 "og").2 (by decide)

/-! ### C1: the bad-hash avoidance retry loop -/

theorem avoidLoop_all_bad (ops : Ops) (bad : List String) (ls : List Nat)
    (hall : ∀ r : RngLCG, bad.contains (ops.hashB (init_brain ops ls r).1) = true) :
    ∀ (n : Nat) (r0 : RngLCG),
      (avoidLoop ops bad ls n (init_brain ops ls r0).1 (init_brain ops ls r0).2).1 =
        nthCand ops ls n r0 := by
  intro n
  induction n with
  | zero => intro r0; rfl
  | succ n ih =>
    intro r0
    simp only [avoidLoop, hall r0, if_true, nthCand]
    exact ih (init_brain ops ls r0).2

theorem avoidLoopCount_all_bad (ops : Ops) (bad : List String) (ls : List Nat)
    (hall : ∀ r : RngLCG, bad.contains (ops.hashB (init_brain ops ls r).1) = true) :
    ∀ (n : Nat) (r0 : RngLCG),
      avoidLoopCount ops bad ls n (init_brain ops ls r0).1 (init_brain ops ls r0).2 = n := by
  intro n
  induction n with
  | zero => intro r0; rfl
  | succ n ih =>
    intro r0
    simp only [avoidLoopCount, hall r0, if_true]
    rw [ih (init_brain ops ls r0).2]

/-- C1 (amended): when the avoid-set contains the hash of every
candidate the RNG stream can produce, `init_brain_avoiding_bad`
performs exactly 17 initialization attempts — the initial attempt plus
the 16 retries of the `MAX_TRIES = 16` loop — and returns the 17th
candidate (index 16 of the candidate sequence) unconditionally. -/
theorem init_brain_avoiding_bad_all_bad (ops : Ops) (ls : List Nat)
    (rng : RngLCG) (bad : List String)
    (hall : ∀ r : RngLCG, bad.contains (ops.hashB (init_brain ops ls r).1) = true) :
    (init_brain_avoiding_bad ops ls rng bad).1 = nthCand ops ls 16 rng ∧
    initAttempts ops ls rng bad = 17 := by
  have hne : bad.isEmpty = false := by
    cases hb : bad with
    | nil => have := hall rng; rw [hb] at this; simp [List.contains] at this
    | cons a l => rfl
  constructor
  · show (let first := init_brain ops ls rng
      if bad.isEmpty then first
      else avoidLoop ops bad ls 16 first.1 first.2).1 = _
    rw [hne]
    simpa using avoidLoop_all_bad ops bad ls hall 16 rng
  · show (let first := init_brain ops ls rng
      if bad.isEmpty then 1
      else 1 + avoidLoopCount ops bad ls 16 first.1 first.2) = 17
    rw [hne]
    simp only [Bool.false_eq_true, if_false]
    rw [avoidLoopCount_all_bad ops bad ls hall 16 rng]

theorem init_brain_avoiding_bad_all_bad_witness :
    (init_brain_avoiding_bad trivOps [1, 1] (RngLCG.new 1) ["x"]).1 =
      nthCand trivOps [1, 1] 16 (RngLCG.new 1) ∧
    initAttempts trivOps [1, 1] (RngLCG.new 1) ["x"] = 17 :=
  init_brain_avoiding_bad_all_bad trivOps [1, 1] (RngLCG.new 1) ["x"]
    (fun _ => rfl)

/-- C1 as literally claimed is false: on a degenerate single-value hash
(every candidate hashes to "x") with avoid-set {"x"}, initialization
does not stop after 16 attempts with the 16th candidate — it performs
17 attempts. -/
theorem init_brain_avoiding_bad_not_16 :
    ¬ (initAttempts trivOps [1, 1] (RngLCG.new 1) ["x"] = 16 ∧
       (init_brain_avoiding_bad trivOps [1, 1] (RngLCG.new 1) ["x"]).1 =
         nthCand trivOps [1, 1] 15 (RngLCG.new 1)) := by
  intro h
  exact absurd h.1 (by decide)

/-! ### C4: corpse decay lifecycle -/

theorem decayCorpse_const_rate (ops : Ops) (cfg : Config) (tick : Nat)
    (dt r : ℚ)
    (hc1 : cfg.corpse_temp_decay_coeff = 0)
    (hc2 : cfg.corpse_humidity_decay_coeff = 0)
    (hc3 : cfg.corpse_rain_decay_coeff = 0)
    (hc4 : cfg.corpse_wetness_decay_coeff = 0)
    (hr : cfg.corpse_base_decay_per_sec = r) (hrpos : 0 ≤ r) (c : Corpse) :
    (decayCorpse ops cfg tick dt c).decay_timer =
      (if c.decay_timer - dt * 60 * r < 0 then 0
       else c.decay_timer - dt * 60 * r) ∧
    (decayCorpse ops cfg tick dt c).x = c.x ∧
    (decayCorpse ops cfg tick dt c).y = c.y := by
  refine ⟨?_, rfl, rfl⟩
  simp only [decayCorpse, hc1, hc2, hc3, hc4, hr, mul_zero, zero_mul,
    add_zero, max_eq_left hrpos]

theorem corpsePhase_singleton (ops : Ops) (cfg : Config) (tick : Nat)
    (dt : ℚ) (c : Corpse) :
    corpsePhase ops cfg tick dt [c] =
      if 0 < (decayCorpse ops cfg tick dt c).decay_timer
      then [decayCorpse ops cfg tick dt c] else [] := by
  simp only [corpsePhase, List.map, List.filter]
  split_ifs with h
  · simp [h]
  · simp [h]

theorem iterCorpse_nil (ops : Ops) (cfg : Config) (dt : ℚ) :
    ∀ (n t : Nat), iterCorpse ops cfg dt t n [] = [] := by
  intro n
  induction n with
  | zero => intro t; rfl
  | succ n ih =>
    intro t
    show iterCorpse ops cfg dt (t + 1) n (corpsePhase ops cfg (t + 1) dt []) = []
    simpa [corpsePhase] using ih (t + 1)

theorem iterCorpse_alive (ops : Ops) (cfg : Config) (dt r : ℚ)
    (hc1 : cfg.corpse_temp_decay_coeff = 0)
    (hc2 : cfg.corpse_humidity_decay_coeff = 0)
    (hc3 : cfg.corpse_rain_decay_coeff = 0)
    (hc4 : cfg.corpse_wetness_decay_coeff = 0)
    (hr : cfg.corpse_base_decay_per_sec = r) (hrpos : 0 < r) (hdt : 0 < dt) :
    ∀ (j t : Nat) (c : Corpse), (j : ℚ) * (r * 60 * dt) < c.decay_timer →
      ∃ c', iterCorpse ops cfg dt t j [c] = [c'] ∧
        c'.decay_timer = c.decay_timer - (j : ℚ) * (r * 60 * dt) := by
  have hd : (0 : ℚ) < r * 60 * dt := by positivity
  intro j
  induction j with
  | zero =>
    intro t c _
    exact ⟨c, rfl, by push_cast; ring⟩
  | succ j ih =>
    intro t c hc
    have hjd : (0 : ℚ) ≤ (j : ℚ) * (r * 60 * dt) := by positivity
    have hcast : ((j + 1 : Nat) : ℚ) = (j : ℚ) + 1 := by push_cast; ring
    rw [hcast] at hc
    obtain ⟨ht, _, _⟩ := decayCorpse_const_rate ops cfg (t + 1) dt r
      hc1 hc2 hc3 hc4 hr hrpos.le c
    have hnn : ¬ (c.decay_timer - dt * 60 * r < 0) := by nlinarith
    rw [if_neg hnn] at ht
    have hpos1 : 0 < (decayCorpse ops cfg (t + 1) dt c).decay_timer := by
      rw [ht]; nlinarith
    have hstep : iterCorpse ops cfg dt t (j + 1) [c] =
        iterCorpse ops cfg dt (t + 1) j [decayCorpse ops cfg (t + 1) dt c] := by
      show iterCorpse ops cfg dt (t + 1) j (corpsePhase ops cfg (t + 1) dt [c]) = _
      rw [corpsePhase_singleton, if_pos hpos1]
    obtain ⟨c', he, htimer⟩ := ih (t + 1) (decayCorpse ops cfg (t + 1) dt c)
      (by rw [ht]; nlinarith)
    refine ⟨c', by rw [hstep, he], ?_⟩
    rw [htimer, ht, hcast]
    ring

theorem iterCorpse_dead (ops : Ops) (cfg : Config) (dt r : ℚ)
    (hc1 : cfg.corpse_temp_decay_coeff = 0)
    (hc2 : cfg.corpse_humidity_decay_coeff = 0)
    (hc3 : cfg.corpse_rain_decay_coeff = 0)
    (hc4 : cfg.corpse_wetness_decay_coeff = 0)
    (hr : cfg.corpse_base_decay_per_sec = r) (hrpos : 0 < r) (hdt : 0 < dt) :
    ∀ (j t : Nat) (c : Corpse), 0 < c.decay_timer →
      c.decay_timer ≤ (j : ℚ) * (r * 60 * dt) →
      iterCorpse ops cfg dt t j [c] = [] := by
  have hd : (0 : ℚ) < r * 60 * dt := by positivity
  intro j
  induction j with
  | zero =>
    intro t c hpos hle
    simp only [Nat.cast_zero, zero_mul] at hle
    linarith
  | succ j ih =>
    intro t c hpos hle
    have hcast : ((j + 1 : Nat) : ℚ) = (j : ℚ) + 1 := by push_cast; ring
    rw [hcast] at hle
    obtain ⟨ht, _, _⟩ := decayCorpse_const_rate ops cfg (t + 1) dt r
      hc1 hc2 hc3 hc4 hr hrpos.le c
    have hstep : iterCorpse ops cfg dt t (j + 1) [c] =
        iterCorpse ops cfg dt (t + 1) j (corpsePhase ops cfg (t + 1) dt [c]) :=
      rfl
    by_cases hlive : 0 < (decayCorpse ops cfg (t + 1) dt c).decay_timer
    · have hnn : ¬ (c.decay_timer - dt * 60 * r < 0) := by
        intro hcon
        rw [if_pos hcon] at ht
        rw [ht] at hlive
        exact absurd hlive (lt_irrefl 0)
      rw [if_neg hnn] at ht
      have hjd : (0 : ℚ) ≤ (j : ℚ) * (r * 60 * dt) := by positivity
      rw [hstep, corpsePhase_singleton, if_pos hlive]
      exact ih (t + 1) _ hlive (by rw [ht]; nlinarith)
    · rw [hstep, corpsePhase_singleton, if_neg hlive]
      exact iterCorpse_nil ops cfg dt j (t + 1)

/-- C4: with every environmental decay coefficient zero, a corpse's
per-tick decay rate is the constant base rate `r > 0`; starting from
timer `T > 0` under repeated steps of constant `dt > 0` the corpse is
present with timer `T - j·(r·60·dt)` after each of the first
`⌈T/(r·60·dt)⌉ - 1` ticks, is removed at the end of tick
`⌈T/(r·60·dt)⌉` exactly, and in general a decayed corpse whose
end-of-tick timer is still strictly positive is always retained. -/
theorem corpse_lifecycle (ops : Ops) (cfg : Config) (dt T r : ℚ)
    (tick0 : Nat) (co : Corpse) (k : Nat)
    (hc1 : cfg.corpse_temp_decay_coeff = 0)
    (hc2 : cfg.corpse_humidity_decay_coeff = 0)
    (hc3 : cfg.corpse_rain_decay_coeff = 0)
    (hc4 : cfg.corpse_wetness_decay_coeff = 0)
    (hr : cfg.corpse_base_decay_per_sec = r) (hrpos : 0 < r)
    (hdt : 0 < dt) (hT : co.decay_timer = T) (hTpos : 0 < T)
    (hk : k = (⌈T / (r * 60 * dt)⌉).toNat) :
    (∀ j < k, ∃ co', iterCorpse ops cfg dt tick0 j [co] = [co'] ∧
      co'.decay_timer = T - (j : ℚ) * (r * 60 * dt)) ∧
    iterCorpse ops cfg dt tick0 k [co] = [] ∧
    (∀ (t : Nat) (cs : List Corpse) (c : Corpse), c ∈ cs →
      0 < (decayCorpse ops cfg t dt c).decay_timer →
      decayCorpse ops cfg t dt c ∈ corpsePhase ops cfg t dt cs) := by
  have hd : (0 : ℚ) < r * 60 * dt := by positivity
  have hceil : (0 : ℤ) < ⌈T / (r * 60 * dt)⌉ :=
    Int.ceil_pos.mpr (div_pos hTpos hd)
  have hkZ : (k : ℤ) = ⌈T / (r * 60 * dt)⌉ := by
    rw [hk]; exact Int.toNat_of_nonneg hceil.le
  refine ⟨?_, ?_, ?_⟩
  · intro j hj
    have hjlt : ((j : ℤ) : ℚ) < T / (r * 60 * dt) := by
      apply Int.lt_ceil.mp
      rw [← hkZ]
      exact_mod_cast hj
    have : (j : ℚ) * (r * 60 * dt) < T := by
      refine (lt_div_iff₀ hd).mp ?_
      exact_mod_cast hjlt
    obtain ⟨c', he, ht⟩ := iterCorpse_alive ops cfg dt r hc1 hc2 hc3 hc4 hr
      hrpos hdt j tick0 co (by rw [hT]; exact this)
    exact ⟨c', he, by rw [ht, hT]⟩
  · have hTk : T ≤ (k : ℚ) * (r * 60 * dt) := by
      have h1 : T / (r * 60 * dt) ≤ ((k : ℤ) : ℚ) := by
        rw [hkZ]; exact Int.le_ceil _
      rw [div_le_iff₀ hd] at h1
      push_cast at h1 ⊢
      linarith
    exact iterCorpse_dead ops cfg dt r hc1 hc2 hc3 hc4 hr hrpos hdt k tick0 co
      (by rw [hT]; exact hTpos) (by rw [hT]; exact hTk)
  · intro t cs c hc hpos
    refine List.mem_filter.mpr ⟨List.mem_map_of_mem _ hc, by simpa using hpos⟩

/-! ### C8 / C9 / C2: energy floors, newborn placement, vital ranges -/

theorem floorCost_nonneg (b : Bool) (c e : ℚ) (he : 0 ≤ e) :
    0 ≤ floorCost b c e := by
  rcases b with _ | _
  · exact he
  · exact le_max_right _ _

theorem floorCost_lb (b : Bool) (c e : ℚ) (hc : 0 ≤ c) :
    e - c ≤ floorCost b c e := by
  rcases b with _ | _
  · show e - c ≤ e
    linarith
  · exact le_max_left _ _

theorem floorCost_ub (b : Bool) (c e B : ℚ) (hc : 0 ≤ c) (he : e ≤ B)
    (hB : 0 ≤ B) : floorCost b c e ≤ B := by
  rcases b with _ | _
  · exact he
  · exact max_le (by linarith) hB

theorem eatStep_nonneg (b : Bool) (c e : ℚ) (he : 0 ≤ e) :
    0 ≤ eatStep b c e := by
  rcases b with _ | _
  · exact he
  · exact le_max_right _ _

theorem eatStep_lb (b : Bool) (c e : ℚ) (hc : 0 ≤ c) (he : e ≤ 100) :
    e - c ≤ eatStep b c e := by
  rcases b with _ | _
  · show e - c ≤ e
    linarith
  · show e - c ≤ max (min (e + 0.15) 100 - c) 0
    have h1 : e ≤ min (e + 0.15) 100 := le_min (by linarith) he
    have h2 := le_max_left (min (e + 0.15) 100 - c) (0 : ℚ)
    linarith

theorem eatStep_ub (b : Bool) (c e : ℚ) (hc : 0 ≤ c) (he : e ≤ 100) :
    eatStep b c e ≤ 100 := by
  rcases b with _ | _
  · exact he
  · show max (min (e + 0.15) 100 - c) 0 ≤ 100
    have h1 := min_le_right (e + 0.15) (100 : ℚ)
    exact max_le (by linarith) (by norm_num)

theorem energySteps_nonneg (cfg : Config) (dt : ℚ)
    (f1 f2 f3 f4 f5 : Bool) (sp e0 : ℚ) (he0 : 0 ≤ e0) :
    ∀ e ∈ energySteps cfg dt f1 f2 f3 f4 f5 sp e0, 0 ≤ e := by
  intro e hmem
  set E1 := eatStep f1 (cfg.harvest_plant_action_cost_per_second * dt * 60) e0 with hE1
  set E2 := floorCost f2 0.1 E1 with hE2
  set E3 := floorCost (f2 && decide (sp > 2.5))
    (cfg.sprint_overflow_cost_per_sec * dt * 60) E2 with hE3
  set E4 := floorCost (!f3 && decide (sp < 0.05))
    (cfg.posture_cost_per_sec * dt * 60) E3 with hE4
  set E5 := floorCost f4 (cfg.attack_cost_per_hit_energy * dt * 60) E4 with hE5
  set E6 := floorCost f5 (cfg.drink_cost_per_second * dt * 60) E5 with hE6
  have hl : energySteps cfg dt f1 f2 f3 f4 f5 sp e0 =
      [e0, E1, E2, E3, E4, E5, E6,
        max (E6 - cfg.move_cost_coeff_per_speed_per_sec * sp * dt * 60) 0] := rfl
  rw [hl] at hmem
  have h1 := eatStep_nonneg f1 (cfg.harvest_plant_action_cost_per_second * dt * 60) e0 he0
  rw [← hE1] at h1
  have h2 := floorCost_nonneg f2 0.1 E1 h1
  rw [← hE2] at h2
  have h3 := floorCost_nonneg (f2 && decide (sp > 2.5))
    (cfg.sprint_overflow_cost_per_sec * dt * 60) E2 h2
  rw [← hE3] at h3
  have h4 := floorCost_nonneg (!f3 && decide (sp < 0.05))
    (cfg.posture_cost_per_sec * dt * 60) E3 h3
  rw [← hE4] at h4
  have h5 := floorCost_nonneg f4 (cfg.attack_cost_per_hit_energy * dt * 60) E4 h4
  rw [← hE5] at h5
  have h6 := floorCost_nonneg f5 (cfg.drink_cost_per_second * dt * 60) E5 h5
  rw [← hE6] at h6
  have h7 := le_max_right
    (E6 - cfg.move_cost_coeff_per_speed_per_sec * sp * dt * 60) (0 : ℚ)
  simp only [List.mem_cons, List.not_mem_nil, or_false] at hmem
  rcases hmem with rfl | rfl | rfl | rfl | rfl | rfl | rfl | rfl <;>
    assumption

theorem energyAfterCosts_eq (cfg : Config) (dt : ℚ)
    (f1 f2 f3 f4 f5 : Bool) (sp e0 : ℚ) :
    energyAfterCosts cfg dt f1 f2 f3 f4 f5 sp e0 =
      max ((floorCost f5 (cfg.drink_cost_per_second * dt * 60)
        (floorCost f4 (cfg.attack_cost_per_hit_energy * dt * 60)
          (floorCost (!f3 && decide (sp < 0.05)) (cfg.posture_cost_per_sec * dt * 60)
            (floorCost (f2 && decide (sp > 2.5)) (cfg.sprint_overflow_cost_per_sec * dt * 60)
              (floorCost f2 0.1
                (eatStep f1 (cfg.harvest_plant_action_cost_per_second * dt * 60) e0)))))) -
        cfg.move_cost_coeff_per_speed_per_sec * sp * dt * 60) 0 := rfl

theorem energyAfterCosts_nonneg (cfg : Config) (dt : ℚ)
    (f1 f2 f3 f4 f5 : Bool) (sp e0 : ℚ) :
    0 ≤ energyAfterCosts cfg dt f1 f2 f3 f4 f5 sp e0 := by
  rw [energyAfterCosts_eq]
  exact le_max_right _ _

theorem energyAfterCosts_bounds (cfg : Config) (dt : ℚ)
    (f1 f2 f3 f4 f5 : Bool) (sp e0 : ℚ)
    (h1 : 0 ≤ cfg.harvest_plant_action_cost_per_second * dt * 60)
    (h2 : 0 ≤ cfg.sprint_overflow_cost_per_sec * dt * 60)
    (h3 : 0 ≤ cfg.posture_cost_per_sec * dt * 60)
    (h4 : 0 ≤ cfg.attack_cost_per_hit_energy * dt * 60)
    (h5 : 0 ≤ cfg.drink_cost_per_second * dt * 60)
    (h6 : 0 ≤ cfg.move_cost_coeff_per_speed_per_sec * sp * dt * 60)
    (h100 : e0 ≤ 100) :
    e0 - (cfg.harvest_plant_action_cost_per_second * dt * 60 + 0.1 +
        cfg.sprint_overflow_cost_per_sec * dt * 60 +
        cfg.posture_cost_per_sec * dt * 60 +
        cfg.attack_cost_per_hit_energy * dt * 60 +
        cfg.drink_cost_per_second * dt * 60 +
        cfg.move_cost_coeff_per_speed_per_sec * sp * dt * 60) ≤
      energyAfterCosts cfg dt f1 f2 f3 f4 f5 sp e0 ∧
    energyAfterCosts cfg dt f1 f2 f3 f4 f5 sp e0 ≤ 100 := by
  rw [energyAfterCosts_eq]
  set E1 := eatStep f1 (cfg.harvest_plant_action_cost_per_second * dt * 60) e0 with hE1
  set E2 := floorCost f2 0.1 E1 with hE2
  set E3 := floorCost (f2 && decide (sp > 2.5))
    (cfg.sprint_overflow_cost_per_sec * dt * 60) E2 with hE3
  set E4 := floorCost (!f3 && decide (sp < 0.05))
    (cfg.posture_cost_per_sec * dt * 60) E3 with hE4
  set E5 := floorCost f4 (cfg.attack_cost_per_hit_energy * dt * 60) E4 with hE5
  set E6 := floorCost f5 (cfg.drink_cost_per_second * dt * 60) E5 with hE6
  have e1l := eatStep_lb f1 (cfg.harvest_plant_action_cost_per_second * dt * 60) e0 h1 h100
  have e1u := eatStep_ub f1 (cfg.harvest_plant_action_cost_per_second * dt * 60) e0 h1 h100
  rw [← hE1] at e1l e1u
  have e2l := floorCost_lb f2 0.1 E1 (by norm_num)
  have e2u := floorCost_ub f2 0.1 E1 100 (by norm_num) e1u (by norm_num)
  rw [← hE2] at e2l e2u
  have e3l := floorCost_lb (f2 && decide (sp > 2.5))
    (cfg.sprint_overflow_cost_per_sec * dt * 60) E2 h2
  have e3u := floorCost_ub (f2 && decide (sp > 2.5))
    (cfg.sprint_overflow_cost_per_sec * dt * 60) E2 100 h2 e2u (by norm_num)
  rw [← hE3] at e3l e3u
  have e4l := floorCost_lb (!f3 && decide (sp < 0.05))
    (cfg.posture_cost_per_sec * dt * 60) E3 h3
  have e4u := floorCost_ub (!f3 && decide (sp < 0.05))
    (cfg.posture_cost_per_sec * dt * 60) E3 100 h3 e3u (by norm_num)
  rw [← hE4] at e4l e4u
  have e5l := floorCost_lb f4 (cfg.attack_cost_per_hit_energy * dt * 60) E4 h4
  have e5u := floorCost_ub f4 (cfg.attack_cost_per_hit_energy * dt * 60) E4 100 h4 e4u (by norm_num)
  rw [← hE5] at e5l e5u
  have e6l := floorCost_lb f5 (cfg.drink_cost_per_second * dt * 60) E5 h5
  have e6u := floorCost_ub f5 (cfg.drink_cost_per_second * dt * 60) E5 100 h5 e5u (by norm_num)
  rw [← hE6] at e6l e6u
  constructor
  · have hml := le_max_left
      (E6 - cfg.move_cost_coeff_per_speed_per_sec * sp * dt * 60) (0 : ℚ)
    linarith
  · exact max_le (by linarith) (by norm_num)

theorem rclamp_nonneg (x : ℚ) (hx : 0 ≤ x) : 0 ≤ rclamp x (-50) 100 :=
  le_trans (le_min hx (by norm_num)) (le_max_right _ _)

theorem updateCreature_energy_clamped (ops : Ops) (cfg : Config)
    (mode : BrainMode) (width height : ℚ) (tick : Nat)
    (plants : List Plant) (bad : List String) (dt : ℚ)
    (left rest : List Creature) (c0 : Creature) (rng0 : RngLCG) :
    ∃ x, (updateCreature ops cfg mode width height tick plants bad dt
      left rest c0 rng0).1.energy = rclamp x (-50) 100 := ⟨_, rfl⟩

theorem updateCreature_health_clamped (ops : Ops) (cfg : Config)
    (mode : BrainMode) (width height : ℚ) (tick : Nat)
    (plants : List Plant) (bad : List String) (dt : ℚ)
    (left rest : List Creature) (c0 : Creature) (rng0 : RngLCG) :
    ∃ x, (updateCreature ops cfg mode width height tick plants bad dt
      left rest c0 rng0).1.health = rclamp x 0 100 := ⟨_, rfl⟩

theorem updateCreature_lifespan_eq (ops : Ops) (cfg : Config)
    (mode : BrainMode) (width height : ℚ) (tick : Nat)
    (plants : List Plant) (bad : List String) (dt : ℚ)
    (left rest : List Creature) (c0 : Creature) (rng0 : RngLCG) :
    (updateCreature ops cfg mode width height tick plants bad dt
      left rest c0 rng0).1.lifespan = satAdd1 c0.lifespan := rfl

/-- C8: for a non-pregnant creature entering its update with
nonnegative energy, every value the behavior-cost block produces is
nonnegative (every deduction there is floored at 0), and the energy the
update finally stores is nonnegative as well — only the reproduction
costs (which floor at -50) could go below zero, and they are not
reached without a pregnancy. -/
theorem nonpregnant_energy_stays_nonneg (ops : Ops) (cfg : Config)
    (mode : BrainMode) (width height : ℚ) (tick : Nat)
    (plants : List Plant) (bad : List String) (dt : ℚ)
    (left rest : List Creature) (c0 : Creature) (rng0 : RngLCG)
    (hp : c0.is_pregnant = false) (_he : 0 ≤ c0.energy) :
    (∀ (f1 f2 f3 f4 f5 : Bool) (sp e0 : ℚ), 0 ≤ e0 →
      ∀ e ∈ energySteps cfg dt f1 f2 f3 f4 f5 sp e0, 0 ≤ e) ∧
    0 ≤ (updateCreature ops cfg mode width height tick plants bad dt
      left rest c0 rng0).1.energy := by
  constructor
  · intro f1 f2 f3 f4 f5 sp e0 he0
    exact energySteps_nonneg cfg dt f1 f2 f3 f4 f5 sp e0 he0
  · have hrepr : c0 = { c0 with is_pregnant := false } := by rw [← hp]
    rw [hrepr]
    obtain ⟨envt, tsec, f1, f2, f3, f4, f5, sp, e0, heq⟩ :
        ∃ (envt tsec : ℚ) (f1 f2 f3 f4 f5 : Bool) (sp e0 : ℚ),
          (updateCreature ops cfg mode width height tick plants bad dt
            left rest { c0 with is_pregnant := false } rng0).1.energy =
          rclamp (envFloor envt tsec
            (energyAfterCosts cfg dt f1 f2 f3 f4 f5 sp e0)) (-50) 100 :=
      ⟨_, _, _, _, _, _, _, _, _, rfl⟩
    rw [heq]
    apply rclamp_nonneg
    unfold envFloor
    split_ifs
    · exact le_max_right _ _
    · exact energyAfterCosts_nonneg _ _ _ _ _ _ _ _ _

theorem nonpregnant_energy_stays_nonneg_witness :
    0 ≤ (updateCreature trivOps defaultConfig BrainMode.OG 100 100 1 [] []
      (1/60) [] [] creature0 ⟨1⟩).1.energy :=
  (nonpregnant_energy_stays_nonneg trivOps defaultConfig BrainMode.OG 100 100 1
    [] [] (1/60) [] [] creature0 ⟨1⟩ rfl (by norm_num [creature0])).2

theorem spawnOffspring_mem (ops : Ops) (mode : BrainMode)
    (width height : ℚ) (tick : Nat) (px py : ℚ) (diet : Diet)
    (bad : List String) :
    ∀ (n k : Nat) (rng : RngLCG),
      ∀ nb ∈ (spawnOffspring ops mode width height tick px py diet bad k n rng).1,
        nb.health = 100 ∧ nb.energy = 80 ∧
        (∃ vx, nb.x = rclamp vx 0 width) ∧ (∃ vy, nb.y = rclamp vy 0 height) := by
  intro n
  induction n with
  | zero =>
    intro k rng nb hmem
    simp [spawnOffspring] at hmem
  | succ n ih =>
    intro k rng nb hmem
    simp only [spawnOffspring, List.mem_cons] at hmem
    rcases hmem with rfl | hmem
    · exact ⟨rfl, rfl, ⟨_, rfl⟩, ⟨_, rfl⟩⟩
    · exact ih (k + 1) _ nb hmem

theorem updateCreature_newborns_cases (ops : Ops) (cfg : Config)
    (mode : BrainMode) (width height : ℚ) (tick : Nat)
    (plants : List Plant) (bad : List String) (dt : ℚ)
    (left rest : List Creature) (c0 : Creature) (rng0 : RngLCG) :
    (updateCreature ops cfg mode width height tick plants bad dt
      left rest c0 rng0).2.1 = [] ∨
    ∃ (px py : ℚ) (n : Nat) (r : RngLCG),
      (updateCreature ops cfg mode width height tick plants bad dt
        left rest c0 rng0).2.1 =
        (spawnOffspring ops mode width height tick px py c0.diet bad 0 n r).1 := by
  cases hb : c0.is_pregnant
  · have hrepr : c0 = { c0 with is_pregnant := false } := by rw [← hb]
    rw [hrepr]
    exact Or.inl rfl
  · have hrepr : c0 = { c0 with is_pregnant := true } := by rw [← hb]
    rw [hrepr]
    by_cases hg : ({ c0 with is_pregnant := true } : Creature).gestation_timer +
      dt * 60 ≥ cfg.gestation_period
    · right
      dsimp only [updateCreature]
      simp only [if_pos hg]
      exact ⟨_, _, _, _, rfl⟩
    · left
      dsimp only [updateCreature]
      simp only [if_neg hg]
      rfl

/-- The in-bounds property of newborn spawn positions. -/
def newbornInBounds (width height : ℚ) (nb : Creature) : Prop :=
  0 ≤ nb.x ∧ nb.x ≤ width ∧ 0 ≤ nb.y ∧ nb.y ≤ height

/-- C9: every newborn a creature update buffers has its spawn position
clamped into the world rectangle: x ∈ [0, width] and y ∈ [0, height],
by the `clamp` in the offspring loop (not by the toroidal `wrap`),
whatever the parent position and the random jitter. -/
theorem newborn_positions_clamped (ops : Ops) (cfg : Config)
    (mode : BrainMode) (width height : ℚ) (tick : Nat)
    (plants : List Plant) (bad : List String) (dt : ℚ)
    (left rest : List Creature) (c0 : Creature) (rng0 : RngLCG)
    (hw : 0 ≤ width) (hh : 0 ≤ height) :
    ((updateCreature ops cfg mode width height tick plants bad dt
      left rest c0 rng0).2.1).Forall (newbornInBounds width height) := by
  rw [List.forall_iff_forall_mem]
  intro nb hnb
  rcases updateCreature_newborns_cases ops cfg mode width height tick plants
    bad dt left rest c0 rng0 with h | ⟨px, py, n, r, h⟩
  · rw [h] at hnb
    simp at hnb
  · rw [h] at hnb
    obtain ⟨_, _, ⟨vx, hx⟩, ⟨vy, hy⟩⟩ := spawnOffspring_mem ops mode width
      height tick px py c0.diet bad n 0 r nb hnb
    refine ⟨?_, ?_, ?_, ?_⟩
    · rw [hx]
      exact (rclamp_mem vx 0 width hw).1
    · rw [hx]
      exact (rclamp_mem vx 0 width hw).2
    · rw [hy]
      exact (rclamp_mem vy 0 height hh).1
    · rw [hy]
      exact (rclamp_mem vy 0 height hh).2

/-- A concrete pregnant creature whose gestation timer is past the
default gestation period, so its update gives birth. -/
def creatureP : Creature :=
  { creature0 with is_pregnant := true, gestation_timer := 5000 }

theorem newborn_positions_clamped_witness :
    ((updateCreature trivOps defaultConfig BrainMode.OG 100 100 1 [] []
      (1/60) [] [] creatureP ⟨1⟩).2.1).Forall (newbornInBounds 100 100) :=
  newborn_positions_clamped trivOps defaultConfig BrainMode.OG 100 100 1 [] []
    (1/60) [] [] creatureP ⟨1⟩ (by norm_num) (by norm_num)

/-- Characterization of a non-pregnant creature's update: no newborns,
untouched RNG, health through `healthSteps` clamped to [0, 100], and
energy through the behavior costs and the environmental floor clamped
to [-50, 100].  Every piece on the right-hand side is the exact
expression the update computes. -/
theorem updateCreature_unpregnant_spec (ops : Ops) (cfg : Config)
    (mode : BrainMode) (width height : ℚ) (tick : Nat)
    (plants : List Plant) (bad : List String) (dt : ℚ)
    (left rest : List Creature) (c0 : Creature) (rng0 : RngLCG)
    (hp : c0.is_pregnant = false) :
    (updateCreature ops cfg mode width height tick plants bad dt
      left rest c0 rng0).2.1 = [] ∧
    (updateCreature ops cfg mode width height tick plants bad dt
      left rest c0 rng0).2.2 = rng0 ∧
    (updateCreature ops cfg mode width height tick plants bad dt
      left rest c0 rng0).1.health =
      rclamp (healthSteps cfg dt
        (decide (ops.tanhQ ((brainOut ops mode width height tick left rest
          c0).getD 4 0) > 0.5)) c0.lifespan c0.health) 0 100 ∧
    (updateCreature ops cfg mode width height tick plants bad dt
      left rest c0 rng0).1.energy =
      (let out := brainOut ops mode width height tick left rest c0
       let sm := terrain_speed_at ops c0.x c0.y tick
       let ax := ops.tanhQ (out.getD 0 0)
       let ay := ops.tanhQ (out.getD 1 0)
       let asc := |ops.tanhQ (out.getD 2 0)|
       let wants_boost := decide (ops.tanhQ (out.getD 5 0) > 0.5)
       let wants_rest := decide (ops.tanhQ (out.getD 4 0) > 0.5)
       let accel := accelOf wants_boost sm asc
       let vx1 := c0.vx + ax * accel
       let vy1 := c0.vy + ay * accel
       let x1 := c0.x + vx1 * dt * 60 * sm
       let y1 := c0.y + vy1 * dt * 60 * sm
       let vx3 := dampVel wants_rest vx1
       let vy3 := dampVel wants_rest vy1
       let sp := ops.sqrtQ (vx3 * vx3 + vy3 * vy3)
       let near_plant := plants_near plants x1 y1 (c0.radius + 5)
       let eatHit := decide (ops.tanhQ (out.getD 3 0) > 0.5) && near_plant
       let attackHit := decide (c0.diet = Diet.Carnivore) && wants_boost &&
         (nearest_herbivore x1 y1 left rest).isSome
       let drinkHit := near_plant && decide (c0.thirst < cfg.thirst_threshold)
       let env_swim := if decide (y1 < height * 0.12) || decide (y1 > height * 0.88)
         then cfg.swim_energy_cost_per_sec else 0
       let env_wind := cfg.wind_drag_coeff * sample_wind_speed ops x1 y1 tick * sp
       let temp_c := sample_temperature_c ops x1 y1 tick
       let env_cold := if temp_c < cfg.comfort_low_c then
           cfg.temp_cold_penalty_per_sec * max (cfg.comfort_low_c - temp_c) 0 / 10
         else 0
       let env_heat := if temp_c > cfg.comfort_high_c then
           cfg.temp_heat_penalty_per_sec * max (temp_c - cfg.comfort_high_c) 0 / 10
         else 0
       let humid01 := sample_humidity01 ops x1 y1 tick
       let env_humid := if humid01 > cfg.humidity_threshold then
           cfg.humidity_dehydration_coeff_per_sec * max (humid01 - cfg.humidity_threshold) 0
         else 0
       let elev01 := sample_elevation01 ops x1 y1
       let env_oxy := if elev01 > cfg.thin_air_elevation_cutoff01 then
           cfg.oxygen_thin_air_penalty_per_sec * max (elev01 - cfg.thin_air_elevation_cutoff01) 0
         else 0
       let env_noise := cfg.noise_stress_penalty_per_sec * sample_noise01 ops x1 y1 tick
       let env_total := env_swim + env_wind + env_cold + env_heat + env_humid +
         env_oxy + env_noise + cfg.disease_energy_drain_per_sec
       rclamp (envFloor env_total (dt * 60)
         (energyAfterCosts cfg dt eatHit wants_boost wants_rest attackHit
           drinkHit sp c0.energy)) (-50) 100) := by
  have hrepr : c0 = { c0 with is_pregnant := false } := by rw [← hp]
  rw [hrepr]
  exact ⟨rfl, rfl, rfl, rfl⟩

theorem abs_le_one_mul (a b : ℚ) (ha : |a| ≤ 1) (hb : |b| ≤ 1) :
    -1 ≤ a * b ∧ a * b ≤ 1 := by
  have h2 : |a * b| ≤ 1 := by
    rw [abs_mul]
    nlinarith [abs_nonneg a, abs_nonneg b]
  exact abs_le.mp h2

theorem terrain_speed_bounds (ops : Ops) (hv : OpsValid ops) (x y : ℚ)
    (t : Nat) :
    0.6 ≤ terrain_speed_at ops x y t ∧ terrain_speed_at ops x y t ≤ 1 := by
  obtain ⟨h1, h2⟩ := abs_le_one_mul
    (ops.sinQ (x * 0.003 + ((t % 10000 : Nat) : ℚ) * 0.001))
    (ops.cosQ (y * 0.002 - ((t % 10000 : Nat) : ℚ) * 0.001))
    (hv.sin_abs_le _) (hv.cos_abs_le _)
  dsimp only [terrain_speed_at]
  constructor <;> nlinarith

theorem accelOf_bounds (b : Bool) (sm asc : ℚ) (h1 : 0.6 ≤ sm)
    (h2 : sm ≤ 1) (h3 : 0 ≤ asc) (h4 : asc ≤ 1) :
    0 ≤ accelOf b sm asc ∧ accelOf b sm asc ≤ 0.7875 := by
  rcases b with _ | _
  · show 0 ≤ 1 * (0.35 * sm * (0.5 + asc)) ∧
      1 * (0.35 * sm * (0.5 + asc)) ≤ 0.7875
    constructor <;> nlinarith
  · show 0 ≤ 1.5 * (0.35 * sm * (0.5 + asc)) ∧
      1.5 * (0.35 * sm * (0.5 + asc)) ≤ 0.7875
    constructor <;> nlinarith

theorem dampVel_abs_le (b : Bool) (v B : ℚ) (h : |v| ≤ B) :
    |dampVel b v| ≤ B := by
  have h0 := abs_nonneg v
  rcases b with _ | _
  · show |v * 0.99| ≤ B
    rw [abs_mul, abs_of_pos (show (0 : ℚ) < 0.99 by norm_num)]
    nlinarith
  · show |v * 0.99 * 0.9| ≤ B
    rw [abs_mul, abs_mul, abs_of_pos (show (0 : ℚ) < 0.99 by norm_num),
      abs_of_pos (show (0 : ℚ) < 0.9 by norm_num)]
    nlinarith

theorem sq_bound_of_abs (v B : ℚ) (h : |v| ≤ B) : v * v ≤ B * B := by
  nlinarith [abs_mul_abs_self v, abs_nonneg v]

theorem envFloor_zero (t e : ℚ) : envFloor 0 t e = e := by
  simp [envFloor]

theorem rclamp_pos (x : ℚ) (hx : 0 < x) : 0 < rclamp x (-50) 100 :=
  lt_of_lt_of_le (lt_min hx (by norm_num)) (le_max_right _ _)

theorem rclamp_pos_zero (x : ℚ) (hx : 0 < x) : 0 < rclamp x 0 100 :=
  lt_of_lt_of_le (lt_min hx (by norm_num)) (le_max_right _ _)

theorem healthSteps_fresh_pos (b : Bool) :
    0 < healthSteps defaultConfig (1/60) b 0 100 := by
  rcases b with _ | _ <;>
    norm_num [healthSteps, rclamp, defaultConfig]

theorem satAdd1_zero : satAdd1 0 = 1 := by
  norm_num [satAdd1, u32max]

set_option maxHeartbeats 2000000 in
/-- Fully regenerated, non-pregnant creatures with bounded starting
velocity survive a default-config `step(1/60)` update: positive health
and energy, age 1, no newborns, untouched RNG. -/
theorem updateCreature_fresh_alive (ops : Ops) (hv : OpsValid ops)
    (mode : BrainMode) (width height : ℚ) (tick : Nat)
    (plants : List Plant) (bad : List String)
    (left rest : List Creature) (c0 : Creature) (rng0 : RngLCG)
    (hh : c0.health = 100) (he : c0.energy = 100) (hl : c0.lifespan = 0)
    (hp : c0.is_pregnant = false) (hvx : |c0.vx| ≤ 2) (hvy : |c0.vy| ≤ 2) :
    0 < (updateCreature ops defaultConfig mode width height tick plants bad
      (1/60) left rest c0 rng0).1.health ∧
    0 < (updateCreature ops defaultConfig mode width height tick plants bad
      (1/60) left rest c0 rng0).1.energy ∧
    (updateCreature ops defaultConfig mode width height tick plants bad
      (1/60) left rest c0 rng0).1.lifespan = 1 ∧
    (updateCreature ops defaultConfig mode width height tick plants bad
      (1/60) left rest c0 rng0).2.1 = [] ∧
    (updateCreature ops defaultConfig mode width height tick plants bad
      (1/60) left rest c0 rng0).2.2 = rng0 := by
  obtain ⟨hn, hr, hhealth, henergy⟩ := updateCreature_unpregnant_spec ops
    defaultConfig mode width height tick plants bad (1/60) left rest c0 rng0 hp
  refine ⟨?_, ?_, ?_, hn, hr⟩
  · rw [hhealth, hh, hl]
    exact rclamp_pos_zero _ (healthSteps_fresh_pos _)
  · rw [henergy, he]
    lift_lets
    extract_lets out sm ax ay asc wants_boost wants_rest accel vx1 vy1 x1 y1
      vx3 vy3 sp near_plant eatHit attackHit drinkHit env_swim env_wind
      temp_c env_cold env_heat humid01 env_humid elev01 env_oxy env_noise
      env_total
    have h1 : env_swim = 0 := by
      unfold_let env_swim
      split_ifs <;> rfl
    have h2 : env_wind = 0 := by
      unfold_let env_wind
      rw [show defaultConfig.wind_drag_coeff = 0 from rfl, zero_mul, zero_mul]
    have h3 : env_cold = 0 := by
      unfold_let env_cold
      split_ifs
      · rw [show defaultConfig.temp_cold_penalty_per_sec = 0 from rfl,
          zero_mul, zero_div]
      · rfl
    have h4 : env_heat = 0 := by
      unfold_let env_heat
      split_ifs
      · rw [show defaultConfig.temp_heat_penalty_per_sec = 0 from rfl,
          zero_mul, zero_div]
      · rfl
    have h5 : env_humid = 0 := by
      unfold_let env_humid
      split_ifs
      · rw [show defaultConfig.humidity_dehydration_coeff_per_sec = 0 from rfl,
          zero_mul]
      · rfl
    have h6 : env_oxy = 0 := by
      unfold_let env_oxy
      split_ifs
      · rw [show defaultConfig.oxygen_thin_air_penalty_per_sec = 0 from rfl,
          zero_mul]
      · rfl
    have h7 : env_noise = 0 := by
      unfold_let env_noise
      rw [show defaultConfig.noise_stress_penalty_per_sec = 0 from rfl,
        zero_mul]
    have henvt : env_total = 0 := by
      unfold_let env_total
      rw [h1, h2, h3, h4, h5, h6, h7,
        show defaultConfig.disease_energy_drain_per_sec = 0 from rfl]
      norm_num
    rw [henvt, envFloor_zero]
    have hsm : 0.6 ≤ sm ∧ sm ≤ 1 := terrain_speed_bounds ops hv c0.x c0.y tick
    have hasc : 0 ≤ asc ∧ asc ≤ 1 := ⟨abs_nonneg _, hv.tanh_abs_le _⟩
    have hax : |ax| ≤ 1 := hv.tanh_abs_le _
    have hay : |ay| ≤ 1 := hv.tanh_abs_le _
    have hacc : 0 ≤ accel ∧ accel ≤ 0.7875 :=
      accelOf_bounds wants_boost sm asc hsm.1 hsm.2 hasc.1 hasc.2
    have habs_mul : ∀ t : ℚ, |t| ≤ 1 → |t * accel| ≤ 0.7875 := by
      intro t ht
      rw [abs_mul, abs_of_nonneg hacc.1]
      nlinarith [abs_nonneg t]
    have hvx1 : |vx1| ≤ 2.7875 := by
      unfold_let vx1
      have h := abs_add c0.vx (ax * accel)
      have h2 := habs_mul ax hax
      linarith
    have hvy1 : |vy1| ≤ 2.7875 := by
      unfold_let vy1
      have h := abs_add c0.vy (ay * accel)
      have h2 := habs_mul ay hay
      linarith
    have hvx3 : |vx3| ≤ 2.7875 := dampVel_abs_le wants_rest vx1 _ hvx1
    have hvy3 : |vy3| ≤ 2.7875 := dampVel_abs_le wants_rest vy1 _ hvy1
    have hsp : 0 ≤ sp ∧ sp ≤ 4 := by
      constructor
      · exact hv.sqrt_nonneg _
      · apply hv.sqrt_le _ 4 (by norm_num)
        have b1 := sq_bound_of_abs vx3 _ hvx3
        have b2 := sq_bound_of_abs vy3 _ hvy3
        nlinarith
    clear_value env_total env_noise env_oxy elev01 env_humid humid01 env_heat
      env_cold temp_c env_wind env_swim drinkHit attackHit eatHit near_plant
      sp vy3 vx3 y1 x1 vy1 vx1 accel wants_rest wants_boost asc ay ax sm out
    have hc1 : defaultConfig.harvest_plant_action_cost_per_second = 0.02 := rfl
    have hc2 : defaultConfig.sprint_overflow_cost_per_sec = 0.03 := rfl
    have hc3 : defaultConfig.posture_cost_per_sec = 0.005 := rfl
    have hc4 : defaultConfig.attack_cost_per_hit_energy = 0.04 := rfl
    have hc5 : defaultConfig.drink_cost_per_second = 0.01 := rfl
    have hc6 : defaultConfig.move_cost_coeff_per_speed_per_sec = 0.02 := rfl
    have hbounds := energyAfterCosts_bounds defaultConfig (1/60) eatHit
      wants_boost wants_rest attackHit drinkHit sp 100
      (by rw [hc1]; norm_num)
      (by rw [hc2]; norm_num)
      (by rw [hc3]; norm_num)
      (by rw [hc4]; norm_num)
      (by rw [hc5]; norm_num)
      (by rw [hc6]; nlinarith [hsp.1])
      (by norm_num)
    rw [hc1, hc2, hc3, hc4, hc5, hc6] at hbounds
    apply rclamp_pos
    have hsp4 := hsp.2
    linarith [hbounds.1]
  · rw [updateCreature_lifespan_eq, hl, satAdd1_zero]

/-- The state of a freshly constructed creature, as `World::new` makes
them: full health/energy, age 0, not pregnant, |velocity| ≤ 2 per axis. -/
def FreshC (c : Creature) : Prop :=
  c.health = 100 ∧ c.energy = 100 ∧ c.lifespan = 0 ∧
  c.is_pregnant = false ∧ |c.vx| ≤ 2 ∧ |c.vy| ≤ 2

/-- Outcome of one update on a fresh creature. -/
def AliveOne (c : Creature) : Prop :=
  0 < c.health ∧ 0 < c.energy ∧ c.lifespan = 1

theorem abs_two_mul_unit (u : ℚ) (h1 : -1 ≤ u) (h2 : u ≤ 1) :
    |u * 2| ≤ 2 :=
  abs_le.mpr ⟨by linarith, by linarith⟩

theorem mkCreatureInit_fresh (ops : Ops) (w h : ℚ) (i : Nat)
    (rng : RngLCG) : FreshC (mkCreatureInit ops w h i rng).1 := by
  refine ⟨rfl, rfl, rfl, rfl, ?_, ?_⟩
  · show |(((rng.uniform 0 w).2.uniform 0 h).2.uniform (-1) 1).1 * 2| ≤ 2
    obtain ⟨h1, h2⟩ := uniform_mem ((rng.uniform 0 w).2.uniform 0 h).2 (-1) 1
      (by norm_num)
    exact abs_two_mul_unit _ h1 h2
  · show |((((rng.uniform 0 w).2.uniform 0 h).2.uniform (-1) 1).2.uniform
      (-1) 1).1 * 2| ≤ 2
    obtain ⟨h1, h2⟩ := uniform_mem
      (((rng.uniform 0 w).2.uniform 0 h).2.uniform (-1) 1).2 (-1) 1
      (by norm_num)
    exact abs_two_mul_unit _ h1 h2

theorem mkCreatures_spec (ops : Ops) (w h : ℚ) :
    ∀ (n i : Nat) (rng : RngLCG),
      (mkCreatures ops w h i n rng).1.length = n ∧
      ∀ c ∈ (mkCreatures ops w h i n rng).1, FreshC c := by
  intro n
  induction n with
  | zero =>
    intro i rng
    exact ⟨rfl, by intro c hc; simp [mkCreatures] at hc⟩
  | succ n ih =>
    intro i rng
    constructor
    · show ((mkCreatureInit ops w h i rng).1 ::
        (mkCreatures ops w h (i + 1) n (mkCreatureInit ops w h i rng).2).1).length = n + 1
      rw [List.length_cons, (ih (i + 1) (mkCreatureInit ops w h i rng).2).1]
    · intro c hc
      rcases List.mem_cons.mp hc with rfl | hc2
      · exact mkCreatureInit_fresh ops w h i rng
      · exact (ih (i + 1) (mkCreatureInit ops w h i rng).2).2 c hc2

theorem stepLoop_fresh (ops : Ops) (hv : OpsValid ops) (cfg : Config)
    (hcfg : cfg = defaultConfig) (mode : BrainMode)
    (width height : ℚ) (tick : Nat) (plants : List Plant)
    (bad : List String) :
    ∀ (todo done nbs : List Creature) (rng : RngLCG),
      (∀ c ∈ todo, FreshC c) →
      (stepLoop ops cfg mode width height tick plants bad (1/60)
        done todo nbs rng).1.length = done.length + todo.length ∧
      (∀ c ∈ (stepLoop ops cfg mode width height tick plants bad
        (1/60) done todo nbs rng).1, c ∈ done ∨ AliveOne c) ∧
      (stepLoop ops cfg mode width height tick plants bad (1/60)
        done todo nbs rng).2.1 = nbs := by
  subst hcfg
  intro todo
  induction todo with
  | nil =>
    intro done nbs rng _
    exact ⟨by simp [stepLoop], fun c hc => Or.inl hc, rfl⟩
  | cons c todo ih =>
    intro done nbs rng hfresh
    obtain ⟨hh, he, hl, hp, hvx, hvy⟩ := hfresh c (List.mem_cons_self c todo)
    obtain ⟨ha1, ha2, ha3, ha4, ha5⟩ := updateCreature_fresh_alive ops hv mode
      width height tick plants bad done todo c rng hh he hl hp hvx hvy
    have ihh := ih
      (done ++ [(updateCreature ops defaultConfig mode width height tick
        plants bad (1/60) done todo c rng).1])
      (nbs ++ (updateCreature ops defaultConfig mode width height tick
        plants bad (1/60) done todo c rng).2.1)
      (updateCreature ops defaultConfig mode width height tick
        plants bad (1/60) done todo c rng).2.2
      (fun x hx => hfresh x (List.mem_cons_of_mem c hx))
    refine ⟨?_, ?_, ?_⟩
    · have hg := ihh.1
      rw [List.length_append, List.length_singleton] at hg
      show (stepLoop ops defaultConfig mode width height tick plants bad
        (1/60) (done ++ [(updateCreature ops defaultConfig mode width height
          tick plants bad (1/60) done todo c rng).1]) todo
        (nbs ++ (updateCreature ops defaultConfig mode width height tick
          plants bad (1/60) done todo c rng).2.1)
        (updateCreature ops defaultConfig mode width height tick plants bad
          (1/60) done todo c rng).2.2).1.length = done.length + (c :: todo).length
      rw [hg, List.length_cons]
      omega
    · intro x hx
      rcases ihh.2.1 x hx with h | h
      · rcases List.mem_append.mp h with h2 | h2
        · exact Or.inl h2
        · right
          rw [List.mem_singleton.mp h2]
          exact ⟨ha1, ha2, ha3⟩
      · exact Or.inr h
    · exact ihh.2.2.trans (by rw [ha4, List.append_nil])

set_option maxHeartbeats 1000000 in
/-- Stepping an all-fresh default-config world once with dt = 1/60 keeps
the population size, advances the tick by one, and ages everyone to 1. -/
theorem step_fresh_world (ops : Ops) (hv : OpsValid ops) (w : World)
    (hcfg : w.config = defaultConfig)
    (hfresh : ∀ c ∈ w.creatures, FreshC c)
    (n : Nat) (hn : w.creatures.length = n)
    (t : Nat) (ht : w.tick + 1 = t) :
    (step ops w (1/60)).creatures.length = n ∧
    (step ops w (1/60)).tick = t ∧
    ((step ops w (1/60)).creatures).Forall (fun c => c.lifespan = 1) := by
  subst hn
  subst ht
  obtain ⟨hL, hMem, hNb⟩ := stepLoop_fresh ops hv w.config hcfg w.brain_mode
    w.width w.height (w.tick + 1) w.plants w.bad_brain_hashes
    w.creatures [] [] w.rng hfresh
  have hcre : (step ops w (1/60)).creatures =
      (partitionDead
        ((stepLoop ops w.config w.brain_mode w.width w.height (w.tick + 1)
          w.plants w.bad_brain_hashes (1/60) [] w.creatures [] w.rng).1 ++
         (stepLoop ops w.config w.brain_mode w.width w.height (w.tick + 1)
          w.plants w.bad_brain_hashes (1/60) [] w.creatures [] w.rng).2.1)).1 :=
    rfl
  have hdead : ∀ c ∈ (stepLoop ops w.config w.brain_mode w.width w.height
      (w.tick + 1) w.plants w.bad_brain_hashes (1/60) [] w.creatures []
      w.rng).1, isDead c = false := by
    intro c hc
    rcases hMem c hc with h | h
    · simp at h
    · unfold isDead
      rw [decide_eq_false (not_le.mpr h.1), decide_eq_false (not_le.mpr h.2.1)]
      rfl
  rw [hcre, hNb, List.append_nil, partitionDead_all_alive _ hdead]
  refine ⟨?_, rfl, ?_⟩
  · have hg := hL
    rw [List.length_nil, Nat.zero_add] at hg
    exact hg
  · rw [List.forall_iff_forall_mem]
    intro c hc
    rcases hMem c hc with h | h
    · simp at h
    · exact h.2.2

set_option linter.constructorNameAsVariable false in
/-- C5: constructing a world with width 100, height 100, seed 42 and
stepping once with dt = 1/60 leaves exactly 50 creatures (no births:
nobody is pregnant; no deaths: every energy floor keeps vitals
positive), sets the tick counter to 1, and gives every creature age 1. -/
theorem step_once_scenario (ops : Ops) (hv : OpsValid ops) :
    (step ops (World.new ops 100 100 42) (1/60)).creatures.length = 50 ∧
    (step ops (World.new ops 100 100 42) (1/60)).tick = 1 ∧
    ((step ops (World.new ops 100 100 42) (1/60)).creatures).Forall
      (fun c => c.lifespan = 1) := by
  have hwc : (World.new ops 100 100 42).creatures =
      (mkCreatures ops 100 100 0 50 (RngLCG.new 42)).1 := rfl
  have hmk := mkCreatures_spec ops 100 100 50 0 (RngLCG.new 42)
  have hfresh : ∀ c ∈ (World.new ops 100 100 42).creatures, FreshC c := by
    rw [hwc]
    exact hmk.2
  have hclen : (World.new ops 100 100 42).creatures.length = 50 := by
    rw [hwc]
    exact hmk.1
  exact step_fresh_world ops hv (World.new ops 100 100 42) rfl hfresh
    50 hclen 1 rfl

theorem step_once_scenario_witness :
    (step trivOps (World.new trivOps 100 100 42) (1/60)).creatures.length = 50 ∧
    (step trivOps (World.new trivOps 100 100 42) (1/60)).tick = 1 :=
  ⟨(step_once_scenario trivOps trivOps_valid).1,
   (step_once_scenario trivOps trivOps_valid).2.1⟩

/-- The vital ranges the spec asserts at tick boundaries. -/
def vitalsOK (c : Creature) : Prop :=
  0 ≤ c.health ∧ c.health ≤ 100 ∧ -50 ≤ c.energy ∧ c.energy ≤ 100

theorem stepLoop_members (ops : Ops) (cfg : Config) (mode : BrainMode)
    (width height : ℚ) (tick : Nat) (plants : List Plant)
    (bad : List String) (dt : ℚ) :
    ∀ (todo done nbs : List Creature) (rng : RngLCG),
      (∀ c ∈ (stepLoop ops cfg mode width height tick plants bad dt
          done todo nbs rng).1,
        c ∈ done ∨ ∃ l r c0 g, c = (updateCreature ops cfg mode width height
          tick plants bad dt l r c0 g).1) ∧
      (∀ nb ∈ (stepLoop ops cfg mode width height tick plants bad dt
          done todo nbs rng).2.1,
        nb ∈ nbs ∨ ∃ l r c0 g, nb ∈ (updateCreature ops cfg mode width height
          tick plants bad dt l r c0 g).2.1) := by
  intro todo
  induction todo with
  | nil =>
    intro done nbs rng
    exact ⟨fun c hc => Or.inl hc, fun nb hnb => Or.inl hnb⟩
  | cons c todo ih =>
    intro done nbs rng
    constructor
    · intro x hx
      rcases (ih (done ++ [(updateCreature ops cfg mode width height tick
          plants bad dt done todo c rng).1])
          (nbs ++ (updateCreature ops cfg mode width height tick plants bad dt
            done todo c rng).2.1)
          (updateCreature ops cfg mode width height tick plants bad dt
            done todo c rng).2.2).1 x hx with h | h
      · rcases List.mem_append.mp h with h | h
        · exact Or.inl h
        · exact Or.inr ⟨done, todo, c, rng, List.mem_singleton.mp h⟩
      · exact Or.inr h
    · intro x hx
      rcases (ih (done ++ [(updateCreature ops cfg mode width height tick
          plants bad dt done todo c rng).1])
          (nbs ++ (updateCreature ops cfg mode width height tick plants bad dt
            done todo c rng).2.1)
          (updateCreature ops cfg mode width height tick plants bad dt
            done todo c rng).2.2).2 x hx with h | h
      · rcases List.mem_append.mp h with h | h
        · exact Or.inl h
        · exact Or.inr ⟨done, todo, c, rng, h⟩
      · exact Or.inr h

/-- C2: after any `step(dt)` on any world, every creature in the
population has health in [0, 100] and energy in [-50, 100]: survivors
were clamped into those ranges at the end of their update, and newborns
are created with health 100 and energy 80. -/
theorem step_vitals_invariant (ops : Ops) (w : World) (dt : ℚ) :
    ((step ops w dt).creatures).Forall vitalsOK := by
  rw [List.forall_iff_forall_mem]
  intro c hc
  have hc3 : c ∈ (midCreatures ops w dt).1 :=
    partitionDead_fst_subset _ c hc
  rcases List.mem_append.mp hc3 with h | h
  · rcases (stepLoop_members ops w.config w.brain_mode w.width w.height
        (w.tick + 1) w.plants w.bad_brain_hashes dt w.creatures [] []
        w.rng).1 c h with h0 | ⟨l, r, c0, g, rfl⟩
    · simp at h0
    · obtain ⟨x, hx⟩ := updateCreature_energy_clamped ops w.config
        w.brain_mode w.width w.height (w.tick + 1) w.plants
        w.bad_brain_hashes dt l r c0 g
      obtain ⟨y, hy⟩ := updateCreature_health_clamped ops w.config
        w.brain_mode w.width w.height (w.tick + 1) w.plants
        w.bad_brain_hashes dt l r c0 g
      have h1 := rclamp_mem x (-50) 100 (by norm_num)
      have h2 := rclamp_mem y 0 100 (by norm_num)
      exact ⟨by rw [hy]; exact h2.1, by rw [hy]; exact h2.2,
             by rw [hx]; exact h1.1, by rw [hx]; exact h1.2⟩
  · rcases (stepLoop_members ops w.config w.brain_mode w.width w.height
        (w.tick + 1) w.plants w.bad_brain_hashes dt w.creatures [] []
        w.rng).2 c h with h0 | ⟨l, r, c0, g, hnb⟩
    · simp at h0
    · rcases updateCreature_newborns_cases ops w.config w.brain_mode w.width
        w.height (w.tick + 1) w.plants w.bad_brain_hashes dt l r c0 g with
        hnil | ⟨px, py, n, g2, heq⟩
      · rw [hnil] at hnb
        simp at hnb
      · rw [heq] at hnb
        obtain ⟨hh, he, _, _⟩ := spawnOffspring_mem ops w.brain_mode w.width
          w.height (w.tick + 1) px py c0.diet w.bad_brain_hashes n 0 g2 c hnb
        exact ⟨by rw [hh]; norm_num, by rw [hh],
               by rw [he]; norm_num, by rw [he]; norm_num⟩

theorem corpse_lifecycle_witness :
    iterCorpse trivOps defaultConfig 1 0 4 [corpseOfCreature creature0] = [] := by
  have h := (corpse_lifecycle trivOps defaultConfig 1 100 0.5 0
    (corpseOfCreature creature0) 4 rfl rfl rfl rfl rfl (by norm_num)
    (by norm_num) rfl (by norm_num) ?_).2.1
  · exact h
  · have : ⌈(100 : ℚ) / (0.5 * 60 * 1)⌉ = 4 := by
      rw [Int.ceil_eq_iff]
      constructor <;> norm_num
    rw [this]
    rfl

end EvoSim
